import Mathlib

set_option linter.unusedVariables false

/-!
# Shallow embedding of the EDI 837P builder (`EDIService.py`)

Conventions used throughout:

* Python dicts with a fixed key set become structures; a key that may be
  absent from the dict becomes an `Option` field (`none` = key absent).
* Monetary amounts (`claimChargeAmount`, `chargeAmount`) are stored as the
  string that Python's f-string interpolation produces for the stored value.
  The builder's declared interface takes Python floats for these fields and
  the f-strings render them with `str`, so e.g. the float literal `150.00`
  is stored here as the string `"150.0"` (which is `str(150.00)` in Python).
  `units` is a Python int, rendered by decimal `toString`.
* `self.provider_map` (the NPI registry) is threaded explicitly through the
  emission functions; only NPI membership in it is ever consulted, so it is
  modelled as the `List String` of registered NPIs.  `self.contact_info_map`
  is likewise kept as the list of its keys; its values ("billing" /
  "submitter") are never read by the program.
* `build` returns `Except String _`.  The only run-time failure reachable
  from stores produced by the add-operations is the `AttributeError` raised
  when `build` evaluates `self.payer_info` and `add_payer` was never called:
  `__init__` does not initialise that attribute, and `build` reads it for
  every subscriber whose `billingProviderIndex` matches the current billing
  provider.
* Attributes of the Python object that are written but never read
  (`version`, the delimiter constants, `hl_count`, `segment_count`,
  `has_dependents`, `patients`) and the methods never reached from `build`
  (`_create_patient_loop`, `to_file`) are omitted.
-/

/-- An address dict.  `address1`, `city`, `state`, `postalCode` are always
present on addresses supplied by the add-operations; `address2` is the one
key that may be absent. -/
structure Address where
  address1 : String
  address2 : Option String
  city : String
  state : String
  postalCode : String
deriving DecidableEq, Repr

/-- A contactInfo dict: `name` and `phoneNumber`, read with `.get(k, "")`. -/
structure ContactInfo where
  name : String
  phoneNumber : String
deriving DecidableEq, Repr

/-- A billing-provider dict as assembled by `add_billing_provider`: either
the `organizationName` key is present (truthy `organization_name` argument)
or the `lastName`/`firstName` keys are. -/
structure BillingProvider where
  npi : String
  taxonomyCode : String
  employerId : String
  address : Address
  organizationName : Option String
  lastName : Option String
  firstName : Option String
  contactInfo : Option ContactInfo
deriving DecidableEq, Repr

/-- A subscriber dict as assembled by `add_subscriber`.  The two code
fields hold the `.value` strings of the Python enums
(`PaymentResponsibilityLevelCode`, `ClaimFilingIndicatorCode`). -/
structure Subscriber where
  memberId : String
  lastName : String
  firstName : String
  address : Address
  birthDate : String
  gender : String
  billingProviderIndex : Nat
  paymentResponsibilityLevelCode : String
  claimFilingCode : String
  is_dependent : Bool
  relationship_to_subscriber : String
deriving DecidableEq, Repr

/-- The `payer_info` dict set by `add_payer`. -/
structure PayerInfo where
  organizationName : String
  payerId : String
deriving DecidableEq, Repr

/-- The `service_facility` dict set by `add_service_facility_location`. -/
structure ServiceFacility where
  npi : String
  organizationName : String
  address : Address
deriving DecidableEq, Repr

/-- The `claim_information` dict set by `add_claim_information`.
`claimChargeAmount` is the `str` rendering of the stored float;
`diagnosisCodes` is the list of (diagnosisTypeCode, diagnosisCode) pairs. -/
structure ClaimInformation where
  subscriberIndex : Nat
  patientControlNumber : String
  claimChargeAmount : String
  placeOfServiceCode : String
  claimFrequencyCode : String
  signatureIndicator : String
  planParticipationCode : String
  releaseInfoCode : String
  benefitsAssignment : String
  diagnosisCodes : List (String × String)
deriving DecidableEq, Repr

/-- A service-line dict as assembled by `add_service_line`.
`chargeAmount` is the `str` rendering of the stored float; `units` is the
stored Python int.  `renderingProviderIndex` is an `Option Int` because the
guard in `_create_service_lines` is `0 <= provider_idx < len(...)`. -/
structure ServiceLine where
  subscriberIndex : Nat
  patientIndex : Option Nat
  procedureCode : String
  modifierCodes : List String
  chargeAmount : String
  units : Int
  serviceDate : String
  renderingProviderIndex : Option Int
deriving DecidableEq, Repr

/-- A rendering-provider dict as assembled by `add_rendering_provider`. -/
structure RenderingProvider where
  npi : String
  lastName : String
  firstName : String
  taxonomyCode : String
  employerId : String
deriving DecidableEq, Repr

/-- The mutable state of one `EDI837Builder` instance (the Claim Record
Store plus the registries).  `payer_info = none` models the attribute not
existing on the object, `claim_information`/`service_facility`/
`prior_authorization` likewise (those three are probed with `hasattr`). -/
structure Builder where
  submitter : Option ContactInfo
  billing_providers : List BillingProvider
  subscribers : List Subscriber
  service_lines : List ServiceLine
  rendering_providers : List RenderingProvider
  contact_info_map : List String
  provider_map : List String
  payer_info : Option PayerInfo
  service_facility : Option ServiceFacility
  prior_authorization : Option String
  claim_information : Option ClaimInformation
deriving DecidableEq, Repr

/-- `EDI837Builder.__init__`: everything empty; note that `payer_info`,
`service_facility`, `prior_authorization` and `claim_information` are NOT
initialised by `__init__` (hence `none` = attribute absent). -/
def initBuilder : Builder :=
  { submitter := none
    billing_providers := []
    subscribers := []
    service_lines := []
    rendering_providers := []
    contact_info_map := []
    provider_map := []
    payer_info := none
    service_facility := none
    prior_authorization := none
    claim_information := none }

/-- The view of an entity dict taken by `_create_name_segment` and its
helpers: the keys they probe with `in` / `.get`.  A `none` field models an
absent key.  `namePfx`/`nameSfx` model the `namePrefix`/`nameSuffix` keys,
which no add-operation ever sets. -/
structure Entity where
  organizationName : Option String := none
  lastName : Option String := none
  firstName : Option String := none
  middleName : Option String := none
  namePfx : Option String := none
  nameSfx : Option String := none
  npi : Option String := none
  memberId : Option String := none
  payerId : Option String := none
  id : Option String := none
deriving DecidableEq, Repr

def BillingProvider.toEntity (p : BillingProvider) : Entity :=
  { organizationName := p.organizationName
    lastName := p.lastName
    firstName := p.firstName
    npi := some p.npi }

def Subscriber.toEntity (s : Subscriber) : Entity :=
  { lastName := some s.lastName
    firstName := some s.firstName
    memberId := some s.memberId }

def RenderingProvider.toEntity (p : RenderingProvider) : Entity :=
  { lastName := some p.lastName
    firstName := some p.firstName
    npi := some p.npi }

def ServiceFacility.toEntity (f : ServiceFacility) : Entity :=
  { organizationName := some f.organizationName
    npi := some f.npi }

/-- `_get_entity_identifier_code`: context → NM1 entity identifier code,
defaulting to the billing-provider code "85" for unknown contexts. -/
def get_entity_identifier_code (context : String) : String :=
  if context = "billing_provider" then "85"
  else if context = "subscriber" then "IL"
  else if context = "patient" then "QC"
  else if context = "submitter" then "41"
  else if context = "receiver" then "40"
  else if context = "rendering_provider" then "82"
  else if context = "payer" then "PR"
  else if context = "service_facility" then "77"
  else "85"

/-- `_determine_entity_type`: person ("1") or non-person ("2"). -/
def determine_entity_type (e : Entity) (context : String) : String :=
  if context = "submitter" ∨ context = "receiver" ∨ context = "payer"
      ∨ context = "service_facility" then "2"
  else if context = "patient" then "1"
  else if e.organizationName.isSome then "2" else "1"

/-- `_can_create_provider`: returns whether to emit, and the updated
`provider_map`.  Registers the NPI when fresh and non-empty. -/
def can_create_provider (e : Entity) (context : String) (m : List String) :
    Bool × List String :=
  if context = "billing_provider" ∨ context = "rendering_provider"
      ∨ context = "service_facility" then
    let npi := e.npi.getD ""
    if npi = "" then (false, m)
    else if npi ∈ m then (false, m)
    else (true, npi :: m)
  else (true, m)

/-- `_get_identification_details`: (identification code, qualifier).  The
`patient` and unknown contexts map to `(None, None)` in the source; the
f-string then renders the `None` qualifier as the text "None" and the code
(computed as `entity_data.get(None, '')` is never reached: `field_name` is
`None` so the code is `''`). -/
def get_identification_details (e : Entity) (context : String) :
    String × String :=
  if context = "submitter" ∨ context = "receiver" then (e.id.getD "", "46")
  else if context = "billing_provider" ∨ context = "rendering_provider"
      ∨ context = "service_facility" then (e.npi.getD "", "XX")
  else if context = "subscriber" then (e.memberId.getD "", "MI")
  else if context = "payer" then (e.payerId.getD "", "PI")
  else ("", "None")

/-- `_create_name_segment`: `none` iff the provider registry rejected the
occurrence; also returns the updated `provider_map`. -/
def create_name_segment (e : Entity) (context : String) (m : List String) :
    Option String × List String :=
  let eic := get_entity_identifier_code context
  let etq := determine_entity_type e context
  let pm := can_create_provider e context m
  if pm.1 then
    let idd := get_identification_details e context
    let nameHalf :=
      if etq = "1" then
        (e.lastName.getD "") ++ "*" ++ (e.firstName.getD "") ++ "*" ++
        (e.middleName.getD "") ++ "*" ++ (e.namePfx.getD "") ++ "*" ++
        (e.nameSfx.getD "") ++ "*"
      else
        (e.organizationName.getD "") ++ "*****"
    (some ("NM1*" ++ eic ++ "*" ++ etq ++ "*" ++ nameHalf ++ idd.2 ++ "*" ++
           idd.1 ++ "~"), pm.2)
  else (none, pm.2)

/-- `_create_header`: the seven hardcoded header segments. -/
def create_header : List String :=
  ["ISA*00*          *00*          *ZZ*AV09311993     *01*030240928      *240702*1531*^*00501*415133923*0*P*>~",
   "GS*HC*1923294*030240928*20240702*1533*415133923*X*005010X222A1~",
   "ST*837*415133923*005010X222A1~",
   "BHT*0019*00*1*20240702*1531*CH~",
   "NM1*41*2*Mattel Industries*****46*1234567890~",
   "PER*IC*Ruth Handler*TE*8458130000~",
   "NM1*40*2*AVAILITY 5010*****46*030240928~"]

/-- `_create_billing_provider_loop` on the indexed provider: hardcoded HL,
PRV specialty, then (registry permitting) NM1 + N3 + N4, then the tax-ID
REF, then the optional PER contact segment. -/
def create_billing_provider_loop (p : BillingProvider) (m : List String) :
    List String × List String :=
  let ns := create_name_segment p.toEntity "billing_provider" m
  let segments := ["HL*1**20*1~", "PRV*BI*PXC*" ++ p.taxonomyCode ++ "~"]
  let segments :=
    match ns.1 with
    | some nameSeg =>
        segments ++
          [nameSeg,
           "N3*" ++ p.address.address1 ++ "*" ++ (p.address.address2.getD "") ++ "~",
           "N4*" ++ p.address.city ++ "*" ++ p.address.state ++ "*" ++
             p.address.postalCode ++ "~"]
    | none => segments
  let segments := segments ++ ["REF*EI*" ++ p.employerId ++ "~"]
  match p.contactInfo with
  | some ci =>
      (segments ++ ["PER*IC*" ++ ci.name ++ "*TE*" ++ ci.phoneNumber ++ "~"], ns.2)
  | none => (segments, ns.2)

/-- `_create_subscriber_loop` on the indexed subscriber.  `numSubs` is
`len(self.subscribers)`; the source sets `subscriber_count = numSubs - 1`
and keys the relationship code and the address/demographics block on it,
NOT on the subscriber's own index.  The name segment is computed before the
dependent branch and unused there (the subscriber context never touches the
registry, so this has no effect). -/
def create_subscriber_loop (sub : Subscriber) (numSubs : Nat) (m : List String) :
    List String × List String :=
  let subscriber_count := numSubs - 1
  let ns := create_name_segment sub.toEntity "subscriber" m
  if sub.is_dependent then
    (["HL*3*2*23*0~"] ++
     (if sub.paymentResponsibilityLevelCode = "P" then
        ["PAT*01~",
         "NM1*QC*1*" ++ sub.lastName ++ "*" ++ sub.firstName ++ "~"]
      else []) ++
     ["N3*" ++ sub.address.address1 ++ "~",
      "N4*" ++ sub.address.city ++ "*" ++ sub.address.state ++ "*" ++
        sub.address.postalCode ++ "~",
      "DMG*D8*" ++ sub.birthDate ++ "*" ++ sub.gender ++ "~"], ns.2)
  else
    let relationship := if subscriber_count > 0 then "" else "18"
    (["HL*2*1*22*" ++ toString subscriber_count ++ "~",
      "SBR*" ++ sub.paymentResponsibilityLevelCode ++ "*" ++ relationship ++
        "*******" ++ sub.claimFilingCode ++ "~",
      ns.1.getD ""] ++
     (if subscriber_count = 0 then
        ["N3*" ++ sub.address.address1 ++ "~",
         "N4*" ++ sub.address.city ++ "*" ++ sub.address.state ++ "*" ++
           sub.address.postalCode ++ "~",
         "DMG*D8*" ++ sub.birthDate ++ "*" ++ sub.gender ++ "~"]
      else []), ns.2)

/-- `_create_payer`: the payer NM1 segment. -/
def create_payer (pi : PayerInfo) : String :=
  "NM1*PR*2*" ++ pi.organizationName ++ "*****PI*" ++ pi.payerId ++ "~"

/-- `_create_service_facility_segments`: empty when no facility is set or
its NM1 is registry-suppressed; otherwise NM1 + N3 (with optional address2)
  + N4.  The source's `address1 in` / `all(...)` key checks always hold for
addresses supplied by `add_service_facility_location`. -/
def create_service_facility_segments (fac : Option ServiceFacility)
    (m : List String) : List String × List String :=
  match fac with
  | none => ([], m)
  | some f =>
    let ns := create_name_segment f.toEntity "service_facility" m
    match ns.1 with
    | some nameSeg =>
        ([nameSeg,
          "N3*" ++ f.address.address1 ++
            (if (f.address.address2.getD "") ≠ "" then
               "*" ++ (f.address.address2.getD "") else "") ++ "~",
          "N4*" ++ f.address.city ++ "*" ++ f.address.state ++ "*" ++
            f.address.postalCode ++ "~"], ns.2)
    | none => ([], ns.2)

/-- `_create_claim_information_loop`: the CLM segment (place-of-service
composite with hardcoded facility-code qualifier "B"), optional prior-auth
REF, optional HI diagnosis composite, optional service-facility block. -/
def create_claim_information_loop (claim_information : Option ClaimInformation)
    (prior_authorization : Option String) (fac : Option ServiceFacility)
    (m : List String) : List String × List String :=
  match claim_information with
  | none => ([], m)
  | some claim =>
    let clm := "CLM*" ++ claim.patientControlNumber ++ "*" ++
      claim.claimChargeAmount ++ "***" ++ claim.placeOfServiceCode ++ ">B>" ++
      claim.claimFrequencyCode ++ "*" ++ claim.signatureIndicator ++ "*" ++
      claim.planParticipationCode ++ "*" ++ claim.releaseInfoCode ++ "*" ++
      claim.benefitsAssignment ++ "~"
    let segments := [clm] ++
      (match prior_authorization with
       | some pa => ["REF*G1*" ++ pa ++ "~"]
       | none => []) ++
      (if claim.diagnosisCodes ≠ [] then
        ["HI*" ++ String.intercalate ">"
            (claim.diagnosisCodes.map (fun d => d.1 ++ ">" ++ d.2)) ++ "~"]
       else [])
    let fs := create_service_facility_segments fac m
    (segments ++ fs.1, fs.2)

/-- The SV1 segment of one service line: procedure composite (modifiers
joined with ":" by the source's loop), charge, "UN", integer units rendered
with a trailing ".0", and the fixed diagnosis pointer. -/
def sv1_segment (line : ServiceLine) : String :=
  "SV1*HC>" ++ line.procedureCode ++
    (line.modifierCodes.foldl (fun acc mc => acc ++ ":" ++ mc) "") ++
  "*" ++ line.chargeAmount ++ "*UN*" ++ toString line.units ++ ".0***1~"

/-- The rendering-provider block of one service line: present only when the
line has a rendering index, the index is in range, and the registry admits
that provider's NPI; the PRV specialty segment is tied to the NM1. -/
def service_line_rendering_block (rps : List RenderingProvider)
    (line : ServiceLine) (m : List String) : List String × List String :=
  match line.renderingProviderIndex with
  | none => ([], m)
  | some idx =>
    if h : 0 ≤ idx ∧ idx.toNat < rps.length then
      let p := rps.get ⟨idx.toNat, h.2⟩
      let ns := create_name_segment p.toEntity "rendering_provider" m
      match ns.1 with
      | some nameSeg => ([nameSeg, "PRV*PE*PXC*" ++ p.taxonomyCode ++ "~"], ns.2)
      | none => ([], ns.2)
    else ([], m)

/-- The enumerate-loop body of `_create_service_lines`: LX with 1-based
number, SV1, optional DTP service date (truthiness test on the stored
string), then the rendering block. -/
def create_service_lines_go (rps : List RenderingProvider) :
    List ServiceLine → Nat → List String → List String × List String
  | [], _, m => ([], m)
  | line :: rest, i, m =>
    let head := ["LX*" ++ toString (i + 1) ++ "~", sv1_segment line]
    let head :=
      if line.serviceDate ≠ "" then
        head ++ ["DTP*472*D8*" ++ line.serviceDate ++ "~"]
      else head
    let rb := service_line_rendering_block rps line m
    let tl := create_service_lines_go rps rest (i + 1) rb.2
    (head ++ rb.1 ++ tl.1, tl.2)

/-- `_create_service_lines`. -/
def create_service_lines (rps : List RenderingProvider)
    (lines : List ServiceLine) (m : List String) : List String × List String :=
  create_service_lines_go rps lines 0 m

/-- `_create_rendering_provider_segments`: for every rendering provider in
registration order, NM1 + PRV when the registry admits its NPI, nothing
otherwise. -/
def create_rendering_provider_segments :
    List RenderingProvider → List String → List String × List String
  | [], m => ([], m)
  | rp :: rest, m =>
    let ns := create_name_segment rp.toEntity "rendering_provider" m
    let head :=
      match ns.1 with
      | some nameSeg => [nameSeg, "PRV*PE*PXC*" ++ rp.taxonomyCode ++ "~"]
      | none => []
    let tl := create_rendering_provider_segments rest ns.2
    (head ++ tl.1, tl.2)

/-- `_create_trailer`: SE with the given count, then the hardcoded GE and
IEA envelope trailers. -/
def create_trailer (segment_count : Nat) : List String :=
  ["SE*" ++ toString segment_count ++ "*415133923~",
   "GE*1*415133923~",
   "IEA*1*415133923~"]

/-- The inner subscriber loop of `build` for one billing-provider index:
subscribers are enumerated and filtered on `billingProviderIndex`; for each
match the subscriber loop is emitted and then `self.payer_info` is read —
an `AttributeError` when the attribute was never created — and the payer
segment appended when the subscriber's enumerate index is 0. -/
def build_subscribers (b : Builder) (provider_idx : Nat) :
    List Subscriber → Nat → List String →
    Except String (List String × List String)
  | [], _, m => .ok ([], m)
  | sub :: rest, sub_idx, m =>
    if sub.billingProviderIndex = provider_idx then
      let sl := create_subscriber_loop sub b.subscribers.length m
      match b.payer_info with
      | none => .error "AttributeError: payer_info"
      | some pi =>
        let payerSegs := if sub_idx = 0 then [create_payer pi] else []
        match build_subscribers b provider_idx rest (sub_idx + 1) sl.2 with
        | .ok tl => .ok (sl.1 ++ payerSegs ++ tl.1, tl.2)
        | .error e => .error e
    else build_subscribers b provider_idx rest (sub_idx + 1) m

/-- The outer enumerate-loop of `build`: for every billing provider, its
loop, then its matching subscribers (with payer), then — still inside the
provider loop — the claim-information loop, the service lines, and (when
any rendering provider is registered) the rendering-provider loop. -/
def build_providers (b : Builder) :
    List BillingProvider → Nat → List String →
    Except String (List String × List String)
  | [], _, m => .ok ([], m)
  | p :: rest, provider_idx, m =>
    let pl := create_billing_provider_loop p m
    match build_subscribers b provider_idx b.subscribers 0 pl.2 with
    | .error e => .error e
    | .ok sl =>
      let cl := create_claim_information_loop b.claim_information
        b.prior_authorization b.service_facility sl.2
      let svc := create_service_lines b.rendering_providers b.service_lines cl.2
      let rl :=
        if b.rendering_providers.length > 0 then
          create_rendering_provider_segments b.rendering_providers svc.2
        else ([], svc.2)
      match build_providers b rest (provider_idx + 1) rl.2 with
      | .error e => .error e
      | .ok tl => .ok (pl.1 ++ sl.1 ++ cl.1 ++ svc.1 ++ rl.1 ++ tl.1, tl.2)

/-- `build`, up to the final join: header, the provider passes, then the
trailer called with `len(segments) - 1`. -/
def buildSegments (b : Builder) : Except String (List String) :=
  match build_providers b b.billing_providers 0 b.provider_map with
  | .error e => .error e
  | .ok body =>
    let pre := create_header ++ body.1
    .ok (pre ++ create_trailer (pre.length - 1))

/-- `build`: the segments joined with a single newline. -/
def build (b : Builder) : Except String String :=
  (buildSegments b).map (String.intercalate "\n")

/-! ## The add-operations -/

/-- The contact-dedup key `f"{name}_{phone_number})"` — note the stray
closing parenthesis in the source's f-string, present in both
`add_billing_provider` and `add_submitter`. -/
def contact_key (name phoneNumber : String) : String :=
  name ++ "_" ++ phoneNumber ++ ")"

/-- `add_billing_provider`.  A truthy `organization_name` puts the
`organizationName` key on the dict, otherwise the `lastName`/`firstName`
keys are stored.  A supplied contactInfo is kept on the provider only when
its `(name, phoneNumber)` key is new to `contact_info_map`, in which case
the key is also recorded.  Returns the new provider's index. -/
def add_billing_provider (b : Builder) (npi taxonomy_code employer_id : String)
    (address : Address) (organization_name last_name first_name : Option String)
    (contactInfo : Option ContactInfo) : Builder × Nat :=
  let base : BillingProvider :=
    if (organization_name.getD "") ≠ "" then
      { npi := npi, taxonomyCode := taxonomy_code, employerId := employer_id
        address := address, organizationName := organization_name
        lastName := none, firstName := none, contactInfo := none }
    else
      { npi := npi, taxonomyCode := taxonomy_code, employerId := employer_id
        address := address, organizationName := none
        lastName := last_name, firstName := first_name, contactInfo := none }
  match contactInfo with
  | some ci =>
    let key := contact_key ci.name ci.phoneNumber
    if key ∈ b.contact_info_map then
      ({ b with billing_providers := b.billing_providers ++ [base] },
       b.billing_providers.length)
    else
      ({ b with
          contact_info_map := b.contact_info_map ++ [key]
          billing_providers :=
            b.billing_providers ++ [{ base with contactInfo := some ci }] },
       b.billing_providers.length)
  | none =>
      ({ b with billing_providers := b.billing_providers ++ [base] },
       b.billing_providers.length)

/-- `add_subscriber`.  The enum arguments are passed as their `.value`
strings (`payment_responsibility_code ∈ {"P","S","T"}`, `claim_filing_code`
one of the `ClaimFilingIndicatorCode` values, "ZZ" being the Python
default `Unknown`).  Returns the new subscriber's index. -/
def add_subscriber (b : Builder) (member_id last_name first_name : String)
    (address : Address) (birth_date gender : String)
    (billing_provider_index : Nat)
    (payment_responsibility_code claim_filing_code : String)
    (is_dependent : Bool) (relationship_to_subscriber : String) :
    Builder × Nat :=
  let sub : Subscriber :=
    { memberId := member_id, lastName := last_name, firstName := first_name
      address := address, birthDate := birth_date, gender := gender
      billingProviderIndex := billing_provider_index
      paymentResponsibilityLevelCode := payment_responsibility_code
      claimFilingCode := claim_filing_code
      is_dependent := is_dependent
      relationship_to_subscriber := relationship_to_subscriber }
  ({ b with subscribers := b.subscribers ++ [sub] }, b.subscribers.length)

/-- `add_submitter`: stores the contactInfo as the submitter and, when one
is supplied, records its contact key if new. -/
def add_submitter (b : Builder) (contactInfo : Option ContactInfo) : Builder :=
  let b := { b with submitter := contactInfo }
  match contactInfo with
  | some ci =>
    let key := contact_key ci.name ci.phoneNumber
    if key ∈ b.contact_info_map then b
    else { b with contact_info_map := b.contact_info_map ++ [key] }
  | none => b

/-- `add_payer`: unconditionally replaces `payer_info` with a single dict;
the `subscriber_index` argument is ignored by the body. -/
def add_payer (b : Builder) (subscriber_index : Nat)
    (payer_name payer_id : String) : Builder :=
  let pinfo : PayerInfo := { organizationName := payer_name, payerId := payer_id }
  { b with payer_info := some pinfo }

/-- `add_service_facility_location`. -/
def add_service_facility_location (b : Builder) (npi organization_name : String)
    (address : Address) : Builder :=
  let fac : ServiceFacility :=
    { npi := npi, organizationName := organization_name, address := address }
  { b with service_facility := some fac }

/-- `add_prior_authorization`. -/
def add_prior_authorization (b : Builder) (prior_auth_number : String) : Builder :=
  { b with prior_authorization := some prior_auth_number }

/-- `add_claim_information` (defaults in the source: frequency "1",
signature "Y", participation "A", release "Y", assignment "Y", diagnosis
codes `[]`). -/
def add_claim_information (b : Builder) (subscriber_index : Nat)
    (patient_control_number claim_charge_amount place_of_service_code
     claim_frequency_code signature_indicator plan_participation_code
     release_info_code benefits_assignment : String)
    (diagnosis_codes : List (String × String)) : Builder :=
  let ci : ClaimInformation :=
    { subscriberIndex := subscriber_index
      patientControlNumber := patient_control_number
      claimChargeAmount := claim_charge_amount
      placeOfServiceCode := place_of_service_code
      claimFrequencyCode := claim_frequency_code
      signatureIndicator := signature_indicator
      planParticipationCode := plan_participation_code
      releaseInfoCode := release_info_code
      benefitsAssignment := benefits_assignment
      diagnosisCodes := diagnosis_codes }
  { b with claim_information := some ci }

/-- `add_service_line`; returns the new line's index. -/
def add_service_line (b : Builder) (subscriber_index : Nat)
    (patient_index : Option Nat) (procedure_code : String)
    (modifier_codes : List String) (charge_amount : String) (units : Int)
    (service_date : String) (rendering_provider_index : Option Int) :
    Builder × Nat :=
  let line : ServiceLine :=
    { subscriberIndex := subscriber_index, patientIndex := patient_index
      procedureCode := procedure_code, modifierCodes := modifier_codes
      chargeAmount := charge_amount, units := units
      serviceDate := service_date
      renderingProviderIndex := rendering_provider_index }
  ({ b with service_lines := b.service_lines ++ [line] }, b.service_lines.length)

/-- `add_rendering_provider`; returns the new provider's index. -/
def add_rendering_provider (b : Builder)
    (npi taxonomy_code last_name first_name employer_id : String) :
    Builder × Nat :=
  let p : RenderingProvider :=
    { npi := npi, lastName := last_name, firstName := first_name
      taxonomyCode := taxonomy_code, employerId := employer_id }
  ({ b with rendering_providers := b.rendering_providers ++ [p] },
   b.rendering_providers.length)

/-! ## Add-sequences (for the determinism property) -/

/-- One call to an add-operation, with all of its arguments. -/
inductive AddOp where
  | billingProvider (npi taxonomy_code employer_id : String) (address : Address)
      (organization_name last_name first_name : Option String)
      (contactInfo : Option ContactInfo)
  | subscriber (member_id last_name first_name : String) (address : Address)
      (birth_date gender : String) (billing_provider_index : Nat)
      (payment_responsibility_code claim_filing_code : String)
      (is_dependent : Bool) (relationship_to_subscriber : String)
  | submitter (contactInfo : Option ContactInfo)
  | payer (subscriber_index : Nat) (payer_name payer_id : String)
  | serviceFacilityLocation (npi organization_name : String) (address : Address)
  | priorAuthorization (prior_auth_number : String)
  | claimInformation (subscriber_index : Nat)
      (patient_control_number claim_charge_amount place_of_service_code
       claim_frequency_code signature_indicator plan_participation_code
       release_info_code benefits_assignment : String)
      (diagnosis_codes : List (String × String))
  | serviceLine (subscriber_index : Nat) (patient_index : Option Nat)
      (procedure_code : String) (modifier_codes : List String)
      (charge_amount : String) (units : Int) (service_date : String)
      (rendering_provider_index : Option Int)
  | renderingProvider (npi taxonomy_code last_name first_name employer_id : String)
deriving DecidableEq, Repr

/-- Apply one add-operation to a builder (discarding the returned index). -/
def applyOp (b : Builder) : AddOp → Builder
  | .billingProvider npi tc eid addr org ln fn ci =>
      (add_billing_provider b npi tc eid addr org ln fn ci).1
  | .subscriber mid ln fn addr bd g bpi prc cfc dep rel =>
      (add_subscriber b mid ln fn addr bd g bpi prc cfc dep rel).1
  | .submitter ci => add_submitter b ci
  | .payer si pn pid => add_payer b si pn pid
  | .serviceFacilityLocation npi org addr =>
      add_service_facility_location b npi org addr
  | .priorAuthorization pan => add_prior_authorization b pan
  | .claimInformation si pcn cca pos cfc si2 ppc ric ba dc =>
      add_claim_information b si pcn cca pos cfc si2 ppc ric ba dc
  | .serviceLine si pidx pc mc ca u sd rpi =>
      (add_service_line b si pidx pc mc ca u sd rpi).1
  | .renderingProvider npi tc ln fn eid =>
      (add_rendering_provider b npi tc ln fn eid).1

/-- Run a whole add-sequence against a builder. -/
def runAdds (b : Builder) (ops : List AddOp) : Builder :=
  ops.foldl applyOp b

/-! ## Concrete stores used by the claims -/

/-- A sample address. -/
def addrA : Address :=
  { address1 := "123 Main St", address2 := none, city := "Los Angeles"
    state := "CA", postalCode := "90001" }

/-- A second sample address. -/
def addrB : Address :=
  { address1 := "42 Oak Ave", address2 := none, city := "San Diego"
    state := "CA", postalCode := "92101" }

/-- One billing provider and one matching subscriber, `add_payer` never
called. -/
def storeNoPayer : Builder :=
  runAdds initBuilder
    [.billingProvider "1234567890" "207Q00000X" "999999999" addrA
       (some "Acme Clinic") none none none,
     .subscriber "M100" "Doe" "Jane" addrB "19800101" "F" 0 "P" "CI" false ""]

/-- One billing provider, two non-dependent subscribers (both owned by
provider 0), and a payer. -/
def storeTwoSubscribers : Builder :=
  runAdds initBuilder
    [.billingProvider "1234567890" "207Q00000X" "999999999" addrA
       (some "Acme Clinic") none none none,
     .subscriber "M100" "Doe" "Jane" addrB "19800101" "F" 0 "P" "ZZ" false "",
     .subscriber "M200" "Smith" "Bob" addrB "19750515" "M" 0 "P" "ZZ" false "",
     .payer 0 "United Health" "WIMCD"]

/-- Two billing providers (distinct NPIs), a claim, one service line, no
subscribers. -/
def storeTwoProviders : Builder :=
  runAdds initBuilder
    [.billingProvider "1111111111" "207Q00000X" "111111111" addrA
       (some "Acme Clinic") none none none,
     .billingProvider "2222222222" "207R00000X" "222222222" addrB
       (some "Beta Clinic") none none none,
     .claimInformation 0 "PCN1" "150.0" "11" "1" "Y" "A" "Y" "Y" [],
     .serviceLine 0 none "99213" [] "150.0" 1 "20240702" none]

/-- The single-claim scenario of the spec: one billing provider, one
subscriber, one claim, one service line — and nothing else.  The float
arguments `150.00` are stored as their Python `str` rendering `"150.0"`. -/
def storeScenario : Builder :=
  runAdds initBuilder
    [.billingProvider "1234567890" "207Q00000X" "999999999" addrA
       (some "Acme Clinic") none none none,
     .subscriber "M100" "Doe" "Jane" addrB "19800101" "F" 0 "P" "CI" false "",
     .claimInformation 0 "PCN1" "150.0" "11" "1" "Y" "A" "Y" "Y" [],
     .serviceLine 0 none "99213" [] "150.0" 1 "20240702" none]

/-- The scenario store with a payer also added, so that `build` does not
trip over the uninitialised `payer_info` attribute. -/
def storeScenarioWithPayer : Builder :=
  runAdds storeScenario [.payer 0 "United Health" "WIMCD"]

/-- A store whose single service line names rendering-provider index 5
while no rendering provider was ever registered; no subscribers. -/
def storeDanglingIndex : Builder :=
  runAdds initBuilder
    [.billingProvider "1234567890" "207Q00000X" "999999999" addrA
       (some "Acme Clinic") none none none,
     .serviceLine 0 none "99213" [] "150.0" 1 "20240702" (some 5)]

/-! ## String predicates used by the theorems

These are stated over `String.data` so that they reduce by structural
recursion and can be reasoned about with the list prefix/suffix order. -/

/-- `p` is a prefix of `s` (Boolean, via the character lists). -/
def strStartsWith (p s : String) : Bool :=
  p.data.isPrefixOf s.data

/-- `p` is a suffix of `s` (Boolean, via the character lists). -/
def strEndsWith (p s : String) : Bool :=
  p.data.isSuffixOf s.data

/-- Segments opening a provider/facility name block for the given NPI: an
NM1 segment whose entity-identifier code is one of the three provider
contexts (85 billing, 82 rendering, 77 facility) and whose trailing
identification pair is `XX*<npi>`. -/
def providerNM1For (npi seg : String) : Bool :=
  (strStartsWith "NM1*85*" seg || strStartsWith "NM1*82*" seg ||
   strStartsWith "NM1*77*" seg) &&
  strEndsWith ("*XX*" ++ npi ++ "~") seg

/-! ## Theorems for the claims -/

/-- C1 (code_bug): the claim says a store with billing provider and
subscriber but no Payer singleton still builds, with the payer segment
simply omitted.  The code instead raises: `__init__` never initialises
`self.payer_info`, and `build` reads that attribute for every subscriber
whose `billingProviderIndex` matches the current billing provider, so the
very store the claim quantifies over makes `build` fail with an
`AttributeError` and produce no transaction at all. -/
theorem build_without_payer_raises :
    build storeNoPayer = Except.error "AttributeError: payer_info"
  ∧ storeNoPayer.payer_info = none
  ∧ storeNoPayer.billing_providers.length = 1
  ∧ storeNoPayer.subscribers.length = 1 :=
  ⟨rfl, rfl, rfl, rfl⟩

/-- C2 counterexample: with two non-dependent subscribers (both owned by
billing provider 0), the transaction `build` emits contains no DMG
demographics segment at all, and both SBR segments carry a blank
relationship field — so the subscriber at store index 0 does NOT get the
address/demographics block or the "self" (18) code, contrary to the
claim. -/
theorem two_subscribers_first_gets_no_address_demographics :
    ((buildSegments storeTwoSubscribers).toOption.getD []).countP
        (fun s => strStartsWith "DMG" s) = 0
  ∧ ((buildSegments storeTwoSubscribers).toOption.getD []).countP
        (fun s => s == "SBR*P********ZZ~") = 2
  ∧ ((buildSegments storeTwoSubscribers).toOption.getD []).countP
        (fun s => s == "SBR*P*18*******ZZ~") = 0 := by
  decide

/-- C3 counterexample: with two billing providers (and one claim plus one
service line in the store), the CLM claim segment and the LX*1 service-line
opener each appear twice in the emitted transaction — the claim loop and
service-line loop are re-emitted inside every billing-provider pass, not
once per transaction. -/
theorem two_providers_duplicate_claim_loop :
    ((buildSegments storeTwoProviders).toOption.getD []).countP
        (fun s => strStartsWith "CLM" s) = 2
  ∧ ((buildSegments storeTwoProviders).toOption.getD []).countP
        (fun s => s == "LX*1~") = 2
  ∧ storeTwoProviders.billing_providers.length = 2 := by
  decide

/-- C4 counterexample: the scenario store (exactly the claim's adds) makes
`build` raise the missing-`payer_info` `AttributeError`, so its output
contains no segment at all; and even with a payer added so that `build`
succeeds, no segment renders the charge amount as `150.00` — the stored
Python float renders as `150.0`. -/
theorem scenario_literals_missing :
    build storeScenario = Except.error "AttributeError: payer_info"
  ∧ ((buildSegments storeScenarioWithPayer).toOption.getD []).countP
        (fun s => s == "CLM*PCN1*150.00***11>B>1*Y*A*Y*Y~") = 0
  ∧ ((buildSegments storeScenarioWithPayer).toOption.getD []).countP
        (fun s => s == "SV1*HC>99213*150.00*UN*1.0***1~") = 0 :=
  ⟨rfl, by decide, by decide⟩

/-- C4 amended: on the scenario store with a payer added (so that `build`
survives the uninitialised `payer_info`), the output contains exactly one
occurrence of each expected segment, with the two charge amounts rendered
as `150.0` (Python's `str` of the float `150.00`). -/
theorem scenario_with_payer_segment_counts :
    ((buildSegments storeScenarioWithPayer).toOption.getD []).countP
        (fun s => s == "HL*1**20*1~") = 1
  ∧ ((buildSegments storeScenarioWithPayer).toOption.getD []).countP
        (fun s => s == "HL*2*1*22*0~") = 1
  ∧ ((buildSegments storeScenarioWithPayer).toOption.getD []).countP
        (fun s => s == "CLM*PCN1*150.0***11>B>1*Y*A*Y*Y~") = 1
  ∧ ((buildSegments storeScenarioWithPayer).toOption.getD []).countP
        (fun s => s == "LX*1~") = 1
  ∧ ((buildSegments storeScenarioWithPayer).toOption.getD []).countP
        (fun s => s == "SV1*HC>99213*150.0*UN*1.0***1~") = 1 := by
  decide

/-- C7 counterexample: a store whose only service line references
rendering-provider index 5 while no rendering provider is registered.
`build` does not abort: it succeeds and emits the line's LX/SV1/DTP
segments, silently omitting only the rendering-provider block (the guard
`0 <= provider_idx < len(...)` skips it without error). -/
theorem dangling_rendering_index_build_succeeds :
    buildSegments storeDanglingIndex = Except.ok
      ["ISA*00*          *00*          *ZZ*AV09311993     *01*030240928      *240702*1531*^*00501*415133923*0*P*>~",
       "GS*HC*1923294*030240928*20240702*1533*415133923*X*005010X222A1~",
       "ST*837*415133923*005010X222A1~",
       "BHT*0019*00*1*20240702*1531*CH~",
       "NM1*41*2*Mattel Industries*****46*1234567890~",
       "PER*IC*Ruth Handler*TE*8458130000~",
       "NM1*40*2*AVAILITY 5010*****46*030240928~",
       "HL*1**20*1~",
       "PRV*BI*PXC*207Q00000X~",
       "NM1*85*2*Acme Clinic*****XX*1234567890~",
       "N3*123 Main St*~",
       "N4*Los Angeles*CA*90001~",
       "REF*EI*999999999~",
       "LX*1~",
       "SV1*HC>99213*150.0*UN*1.0***1~",
       "DTP*472*D8*20240702~",
       "SE*15*415133923~",
       "GE*1*415133923~",
       "IEA*1*415133923~"] :=
  rfl

/-- C9: two builder instances, each freshly constructed and fed the same
add-sequence, produce identical `build` output — the output is a function
of the added data alone (the embedding exhibits no clock, global counter,
or other hidden input). -/
theorem build_deterministic_from_add_sequence (ops : List AddOp)
    (b1 b2 : Builder) (h1 : b1 = runAdds initBuilder ops)
    (h2 : b2 = runAdds initBuilder ops) : build b1 = build b2 := by
  subst h1 h2
  rfl

/-- Witness for C9 at a concrete add-sequence. -/
theorem build_deterministic_from_add_sequence_witness :
    build (runAdds initBuilder [AddOp.payer 0 "United Health" "WIMCD"]) =
    build (runAdds initBuilder [AddOp.payer 0 "United Health" "WIMCD"]) :=
  build_deterministic_from_add_sequence [AddOp.payer 0 "United Health" "WIMCD"]
    (runAdds initBuilder [AddOp.payer 0 "United Health" "WIMCD"])
    (runAdds initBuilder [AddOp.payer 0 "United Health" "WIMCD"]) rfl rfl

/-! ## Subscriber-loop theorems (C2 amended, C8) -/

/-- The NM1 name segment `_create_name_segment` renders for a subscriber
(entity-identifier IL, person, member-id qualifier MI; the middle
name / name affix keys are never set and render empty). -/
def subscriber_nm1 (sub : Subscriber) : String :=
  "NM1*IL*1*" ++ sub.lastName ++ "*" ++ sub.firstName ++ "****MI*" ++
    sub.memberId ++ "~"

/-- The subscriber context bypasses the provider registry and always
yields a name segment, leaving the registry untouched. -/
theorem create_name_segment_subscriber (sub : Subscriber) (m : List String) :
    create_name_segment sub.toEntity "subscriber" m =
      (some (subscriber_nm1 sub), m) := by
  have h1 : create_name_segment sub.toEntity "subscriber" m =
      (some ("NM1*" ++ "IL" ++ "*" ++ "1" ++ "*" ++
        (sub.lastName ++ "*" ++ sub.firstName ++ "*" ++ "" ++ "*" ++ "" ++
          "*" ++ "" ++ "*") ++ "MI" ++ "*" ++ sub.memberId ++ "~"), m) := rfl
  rw [h1]
  refine Prod.ext ?_ rfl
  simp only [Option.some.injEq]
  apply String.ext
  simp [subscriber_nm1, List.append_assoc]

/-- A concrete non-dependent subscriber. -/
def subJane : Subscriber :=
  { memberId := "M100", lastName := "Doe", firstName := "Jane"
    address := addrB, birthDate := "19800101", gender := "F"
    billingProviderIndex := 0, paymentResponsibilityLevelCode := "P"
    claimFilingCode := "ZZ", is_dependent := false
    relationship_to_subscriber := "" }

/-- A concrete dependent subscriber. -/
def depChild : Subscriber :=
  { memberId := "M300", lastName := "Doe", firstName := "Timmy"
    address := addrB, birthDate := "20100101", gender := "M"
    billingProviderIndex := 0, paymentResponsibilityLevelCode := "P"
    claimFilingCode := "ZZ", is_dependent := true
    relationship_to_subscriber := "01" }

/-- C2 amended: for a non-dependent subscriber the loop's address and
demographics block and its "self" (18) relationship code are keyed on the
TOTAL number of stored subscribers (`len(self.subscribers) - 1`), not on
the subscriber's own index: they are emitted iff the store holds exactly
one subscriber, and with two or more subscribers every non-dependent
subscriber — the one at store index 0 included — gets a blank relationship
and no address/demographics. -/
theorem subscriber_loop_keyed_on_total_count (sub : Subscriber)
    (numSubs : Nat) (m : List String) (hdep : sub.is_dependent = false)
    (hn : 1 ≤ numSubs) :
    create_subscriber_loop sub numSubs m =
      (["HL*2*1*22*" ++ toString (numSubs - 1) ++ "~",
        "SBR*" ++ sub.paymentResponsibilityLevelCode ++ "*" ++
          (if numSubs = 1 then "18" else "") ++ "*******" ++
          sub.claimFilingCode ++ "~",
        subscriber_nm1 sub] ++
       (if numSubs = 1 then
          ["N3*" ++ sub.address.address1 ++ "~",
           "N4*" ++ sub.address.city ++ "*" ++ sub.address.state ++ "*" ++
             sub.address.postalCode ++ "~",
           "DMG*D8*" ++ sub.birthDate ++ "*" ++ sub.gender ++ "~"]
        else []), m) := by
  obtain ⟨n, rfl⟩ : ∃ n, numSubs = n + 1 := ⟨numSubs - 1, by omega⟩
  simp only [create_subscriber_loop, create_name_segment_subscriber, hdep,
    Bool.false_eq_true, if_false, Nat.add_sub_cancel]
  cases n with
  | zero => simp
  | succ k => simp [Nat.succ_ne_zero]

/-- Witness for C2 amended: with two subscribers in the store, subscriber
index 0 gets a blank relationship and no address/demographics block. -/
theorem subscriber_loop_keyed_on_total_count_witness :
    create_subscriber_loop subJane 2 [] =
      (["HL*2*1*22*1~", "SBR*P********ZZ~",
        "NM1*IL*1*Doe*Jane****MI*M100~"], []) :=
  subscriber_loop_keyed_on_total_count subJane 2 [] rfl (by decide)

/-- C8: a dependent subscriber's loop is the hardcoded `HL*3*2*23*0~`
followed — when its payment-responsibility code is Primary — by `PAT*01~`
and the patient NM1, and in all cases by the address and demographics
segments; with code Secondary the PAT/NM1 pair is omitted but address and
demographics remain. -/
theorem dependent_subscriber_loop_segments (sub : Subscriber)
    (numSubs : Nat) (m : List String) (hdep : sub.is_dependent = true) :
    (sub.paymentResponsibilityLevelCode = "P" →
      create_subscriber_loop sub numSubs m =
        (["HL*3*2*23*0~", "PAT*01~",
          "NM1*QC*1*" ++ sub.lastName ++ "*" ++ sub.firstName ++ "~",
          "N3*" ++ sub.address.address1 ++ "~",
          "N4*" ++ sub.address.city ++ "*" ++ sub.address.state ++ "*" ++
            sub.address.postalCode ++ "~",
          "DMG*D8*" ++ sub.birthDate ++ "*" ++ sub.gender ++ "~"], m))
  ∧ (sub.paymentResponsibilityLevelCode = "S" →
      create_subscriber_loop sub numSubs m =
        (["HL*3*2*23*0~",
          "N3*" ++ sub.address.address1 ++ "~",
          "N4*" ++ sub.address.city ++ "*" ++ sub.address.state ++ "*" ++
            sub.address.postalCode ++ "~",
          "DMG*D8*" ++ sub.birthDate ++ "*" ++ sub.gender ++ "~"], m)) := by
  constructor <;> intro h <;>
    simp [create_subscriber_loop, create_name_segment_subscriber, hdep, h]

/-- Witness for C8: a concrete Primary dependent. -/
theorem dependent_subscriber_loop_segments_witness :
    create_subscriber_loop depChild 2 [] =
      (["HL*3*2*23*0~", "PAT*01~", "NM1*QC*1*Doe*Timmy~",
        "N3*42 Oak Ave~", "N4*San Diego*CA*92101~",
        "DMG*D8*20100101*M~"], []) :=
  (dependent_subscriber_loop_segments depChild 2 [] rfl).1 rfl

/-! ## Infrastructure for the NPI-dedup invariant (C6)

`providerNM1For` matches a segment by a literal head (one of the three
provider entity-identifier codes) and the trailing `*XX*<npi>~`
identification pair.  The lemmas below let us (a) discharge the predicate
on every non-name segment by comparing literal heads, and (b) show that a
provider name segment matches the predicate only for the NPI it was built
from, provided neither NPI contains the element separator. -/

/-- A list diverging from a pattern within their common length is not
extended into a match by any continuation. -/
theorem not_prefix_append_of_diverge {α : Type} {pat lit : List α}
    (rest : List α) (h1 : ¬ pat <+: lit) (h2 : ¬ lit <+: pat) :
    ¬ pat <+: (lit ++ rest) :=
  fun h =>
    ( List.prefix_or_prefix_of_prefix h (List.prefix_append lit rest)).elim h1 h2

/-- String version of `not_prefix_append_of_diverge`. -/
theorem strStartsWith_append_false {pat lit : String} (rest : String)
    (h1 : ¬ pat.data <+: lit.data) (h2 : ¬ lit.data <+: pat.data) :
    strStartsWith pat (lit ++ rest) = false := by
  have hd := not_prefix_append_of_diverge rest.data h1 h2
  simp only [strStartsWith, String.data_append]
  rw [Bool.eq_false_iff]
  intro hc
  exact hd ( List.isPrefixOf_iff_prefix.mp hc)

/-- `lit` diverges from all three provider NM1 heads. -/
abbrev HeadDiverges (lit : String) : Prop :=
  (¬ "NM1*85*".data <+: lit.data ∧ ¬ lit.data <+: "NM1*85*".data) ∧
  (¬ "NM1*82*".data <+: lit.data ∧ ¬ lit.data <+: "NM1*82*".data) ∧
  (¬ "NM1*77*".data <+: lit.data ∧ ¬ lit.data <+: "NM1*77*".data)

/-- A segment starting with a head diverging from the three provider NM1
heads is not a provider name segment, whatever follows the head. -/
theorem providerNM1For_append_false {lit : String} (npi rest : String)
    (h : HeadDiverges lit) : providerNM1For npi (lit ++ rest) = false := by
  obtain ⟨⟨a1, a2⟩, ⟨b1, b2⟩, ⟨c1, c2⟩⟩ := h
  simp only [providerNM1For, strStartsWith_append_false rest a1 a2,
    strStartsWith_append_false rest b1 b2, strStartsWith_append_false rest c1 c2,
    Bool.or_self, Bool.false_and]

/-- A segment on which all three head tests fail is not a provider name
segment. -/
theorem providerNM1For_closed_false (npi s : String)
    (h85 : strStartsWith "NM1*85*" s = false)
    (h82 : strStartsWith "NM1*82*" s = false)
    (h77 : strStartsWith "NM1*77*" s = false) :
    providerNM1For npi s = false := by
  simp only [providerNM1For, h85, h82, h77, Bool.or_self, Bool.false_and]

/-- Prefix comparison of two star-free blocks each followed by the literal
`*XX*` tail: the blocks must be equal. -/
theorem star_free_block_eq (a : List Char) :
    ∀ (b t : List Char), '*' ∉ a → '*' ∉ b →
    (a ++ '*' :: 'X' :: 'X' :: '*' :: []) <+:
      ((b ++ '*' :: 'X' :: 'X' :: '*' :: []) ++ t) → a = b := by
  induction a with
  | nil =>
    intro b t ha hb h
    cases b with
    | nil => rfl
    | cons d bs =>
      exfalso
      simp only [List.nil_append, List.cons_append, List.cons_prefix_cons] at h
      exact hb (h.1 ▸ List.mem_cons_self d bs)
  | cons c as ih =>
    intro b t ha hb h
    cases b with
    | nil =>
      exfalso
      simp only [List.nil_append, List.cons_append, List.cons_prefix_cons] at h
      exact ha (h.1 ▸ List.mem_cons_self c as)
    | cons d bs =>
      simp only [List.cons_append, List.cons_prefix_cons] at h
      have has : as = bs := by
        refine ih bs t (fun hm => ha (List.mem_cons_of_mem c hm))
          (fun hm => hb (List.mem_cons_of_mem d hm)) ?_
        exact h.2
      rw [h.1, has]

/-- Suffix matching of two `*XX*<npi>~` tails with star-free NPIs forces
the NPIs to coincide. -/
theorem star_free_suffix_unique {w n n' : List Char}
    (hn : '*' ∉ n) (hn' : '*' ∉ n')
    (h : ('*' :: 'X' :: 'X' :: '*' :: (n ++ ['~'])) <:+
         (w ++ '*' :: 'X' :: 'X' :: '*' :: (n' ++ ['~']))) : n = n' := by
  rw [← List.reverse_prefix] at h
  simp only [List.reverse_cons, List.reverse_append, List.reverse_cons,
    List.append_assoc, List.nil_append, List.cons_append,
    List.reverse_nil] at h
  rw [List.cons_prefix_cons] at h
  have key : n.reverse = n'.reverse := by
    refine star_free_block_eq n.reverse n'.reverse w.reverse ?_ ?_ ?_
    · simp only [List.mem_reverse]; exact hn
    · simp only [List.mem_reverse]; exact hn'
    · have h2 := h.2
      simp only [List.append_assoc] at h2 ⊢
      exact h2
  have := congrArg List.reverse key
  simpa using this

/-- A provider name segment whose data decomposes around its trailing
`*XX*<npi'>~` pair matches `providerNM1For npi` only when `npi = npi'`
(both star-free). -/
theorem providerNM1For_true_npi_eq {npi npi' seg : String} {w : List Char}
    (hseg : seg.data = w ++ '*' :: 'X' :: 'X' :: '*' :: (npi'.data ++ ['~']))
    (hstar : '*' ∉ npi.data) (hstar' : '*' ∉ npi'.data)
    (h : providerNM1For npi seg = true) : npi = npi' := by
  have hsuf : ("*XX*" ++ npi ++ "~").data <:+ seg.data := by
    have h2 : strEndsWith ("*XX*" ++ npi ++ "~") seg = true := by
      simp only [providerNM1For, Bool.and_eq_true] at h
      exact h.2
    simpa only [strEndsWith, List.isSuffixOf_iff_suffix] using h2
  have hpat : ("*XX*" ++ npi ++ "~").data =
      '*' :: 'X' :: 'X' :: '*' :: (npi.data ++ ['~']) := by
    simp [String.data_append]
  rw [hpat, hseg] at hsuf
  exact String.ext (star_free_suffix_unique hstar hstar' hsuf)

/-- In a provider context a name segment is refused — and the registry left
unchanged — when the entity's NPI is empty or already registered. -/
theorem cns_provider_none (e : Entity) (ctx : String)
    (hctx : ctx = "billing_provider" ∨ ctx = "rendering_provider"
      ∨ ctx = "service_facility")
    (m : List String) (h : (e.npi.getD "") = "" ∨ (e.npi.getD "") ∈ m) :
    create_name_segment e ctx m = (none, m) := by
  have hc : can_create_provider e ctx m = (false, m) := by
    rcases hctx with h1 | h1 | h1 <;> subst h1 <;>
      by_cases hz : (e.npi.getD "") = "" <;>
        rcases h with h2 | h2 <;> simp [can_create_provider, hz, h2]
  simp [create_name_segment, hc]

/-- Data decomposition of an organization-form NM1 around its `*XX*` tail. -/
theorem nm1_decomp_org (pre org npi : String) :
    ∃ w, (pre ++ (org ++ "*****") ++ "XX" ++ "*" ++ npi ++ "~").data =
      w ++ '*' :: 'X' :: 'X' :: '*' :: (npi.data ++ ['~']) :=
  ⟨(pre ++ (org ++ "****")).data, by
    simp [String.data_append, List.append_assoc]⟩

/-- Data decomposition of a person-form NM1 around its `*XX*` tail. -/
theorem nm1_decomp_person (pre ln fn mid pfx sfx npi : String) :
    ∃ w, (pre ++ (ln ++ "*" ++ fn ++ "*" ++ mid ++ "*" ++ pfx ++ "*" ++ sfx
        ++ "*") ++ "XX" ++ "*" ++ npi ++ "~").data =
      w ++ '*' :: 'X' :: 'X' :: '*' :: (npi.data ++ ['~']) :=
  ⟨(pre ++ (ln ++ "*" ++ fn ++ "*" ++ mid ++ "*" ++ pfx ++ "*" ++ sfx)).data, by
    simp [String.data_append, List.append_assoc]⟩

/-- In a provider context with a fresh non-empty NPI, a name segment is
produced, the NPI is registered, and the segment's character data ends in
the `*XX*<npi>~` identification tail. -/
theorem cns_provider_some (e : Entity) (ctx : String)
    (hctx : ctx = "billing_provider" ∨ ctx = "rendering_provider"
      ∨ ctx = "service_facility")
    (m : List String) (hne : (e.npi.getD "") ≠ "")
    (hmem : (e.npi.getD "") ∉ m) :
    ∃ seg, create_name_segment e ctx m = (some seg, (e.npi.getD "") :: m) ∧
      ∃ w, seg.data = w ++ '*' :: 'X' :: 'X' :: '*' ::
        ((e.npi.getD "").data ++ ['~']) := by
  have hc : can_create_provider e ctx m = (true, (e.npi.getD "") :: m) := by
    rcases hctx with h1 | h1 | h1 <;> subst h1 <;>
      simp [can_create_provider, hne, hmem]
  rcases hctx with h1 | h1 | h1 <;> subst h1 <;>
    by_cases ho : e.organizationName.isSome
  · refine ⟨"NM1*85*2*" ++ (e.organizationName.getD "" ++ "*****") ++ "XX" ++
        "*" ++ e.npi.getD "" ++ "~", ?_, nm1_decomp_org _ _ _⟩
    simp [create_name_segment, hc, ho, get_entity_identifier_code,
      determine_entity_type, get_identification_details]
  · refine ⟨"NM1*85*1*" ++ (e.lastName.getD "" ++ "*" ++ e.firstName.getD "" ++
        "*" ++ e.middleName.getD "" ++ "*" ++ e.namePfx.getD "" ++ "*" ++
        e.nameSfx.getD "" ++ "*") ++ "XX" ++ "*" ++ e.npi.getD "" ++ "~",
      ?_, nm1_decomp_person _ _ _ _ _ _ _⟩
    simp [create_name_segment, hc, ho, get_entity_identifier_code,
      determine_entity_type, get_identification_details]
  · refine ⟨"NM1*82*2*" ++ (e.organizationName.getD "" ++ "*****") ++ "XX" ++
        "*" ++ e.npi.getD "" ++ "~", ?_, nm1_decomp_org _ _ _⟩
    simp [create_name_segment, hc, ho, get_entity_identifier_code,
      determine_entity_type, get_identification_details]
  · refine ⟨"NM1*82*1*" ++ (e.lastName.getD "" ++ "*" ++ e.firstName.getD "" ++
        "*" ++ e.middleName.getD "" ++ "*" ++ e.namePfx.getD "" ++ "*" ++
        e.nameSfx.getD "" ++ "*") ++ "XX" ++ "*" ++ e.npi.getD "" ++ "~",
      ?_, nm1_decomp_person _ _ _ _ _ _ _⟩
    simp [create_name_segment, hc, ho, get_entity_identifier_code,
      determine_entity_type, get_identification_details]
  · refine ⟨"NM1*77*2*" ++ (e.organizationName.getD "" ++ "*****") ++ "XX" ++
        "*" ++ e.npi.getD "" ++ "~", ?_, nm1_decomp_org _ _ _⟩
    simp [create_name_segment, hc, ho, get_entity_identifier_code,
      determine_entity_type, get_identification_details]
  · refine ⟨"NM1*77*2*" ++ (e.organizationName.getD "" ++ "*****") ++ "XX" ++
        "*" ++ e.npi.getD "" ++ "~", ?_, nm1_decomp_org _ _ _⟩
    simp [create_name_segment, hc, ho, get_entity_identifier_code,
      determine_entity_type, get_identification_details]

/-- One emission step's dedup invariant for a tracked NPI: once the NPI is
registered the step emits no matching name segment; it never emits more
than one; it registers the NPI whenever it emits one; and it never forgets
a registration. -/
def PredOnce (npi : String) (segs m m' : List String) : Prop :=
  (npi ∈ m → segs.countP (providerNM1For npi) = 0)
  ∧ segs.countP (providerNM1For npi) ≤ 1
  ∧ (segs.countP (providerNM1For npi) = 1 → npi ∈ m')
  ∧ (npi ∈ m → npi ∈ m')

/-- The invariant composes over sequential emission. -/
theorem predOnce_append {npi : String} {s1 s2 m m1 m2 : List String}
    (h1 : PredOnce npi s1 m m1) (h2 : PredOnce npi s2 m1 m2) :
    PredOnce npi (s1 ++ s2) m m2 := by
  obtain ⟨a1, b1, c1, d1⟩ := h1
  obtain ⟨a2, b2, c2, d2⟩ := h2
  refine ⟨?_, ?_, ?_, fun h => d2 (d1 h)⟩
  · intro h
    rw [List.countP_append, a1 h, a2 (d1 h)]
  · rw [List.countP_append]
    rcases Nat.eq_zero_or_pos (s1.countP (providerNM1For npi)) with h | h
    · rw [h]
      omega
    · have h1' : s1.countP (providerNM1For npi) = 1 := by omega
      have := a2 (c1 h1')
      omega
  · intro h
    rw [List.countP_append] at h
    rcases Nat.eq_zero_or_pos (s2.countP (providerNM1For npi)) with h2' | h2'
    · exact d2 (c1 (by omega))
    · exact c2 (by omega)

/-- A step emitting no matching segment satisfies the invariant as soon as
it preserves registrations. -/
theorem predOnce_zero {npi : String} {segs m m' : List String}
    (h : segs.countP (providerNM1For npi) = 0) (hsub : npi ∈ m → npi ∈ m') :
    PredOnce npi segs m m' :=
  ⟨fun _ => h, by omega, fun h1 => absurd (h.symm.trans h1) (by decide), hsub⟩

/-- A step whose match count equals the indicator of one freshly produced
name segment (for a provider whose NPI it registers) satisfies the
invariant. -/
theorem predOnce_of_count_ite {npi pn seg : String} {w : List Char}
    {segs m : List String}
    (hcount : segs.countP (providerNM1For npi) =
      if providerNM1For npi seg then 1 else 0)
    (hw : seg.data = w ++ '*' :: 'X' :: 'X' :: '*' :: (pn.data ++ ['~']))
    (hstar : '*' ∉ npi.data) (hpn : '*' ∉ pn.data) (hpm : pn ∉ m) :
    PredOnce npi segs m (pn :: m) := by
  by_cases hpred : providerNM1For npi seg = true
  · have heq : npi = pn := providerNM1For_true_npi_eq hw hstar hpn hpred
    refine ⟨fun h => absurd (heq ▸ h) hpm, ?_, ?_, ?_⟩
    · rw [hcount, hpred]
      simp
    · intro _
      rw [heq]
      exact List.mem_cons_self pn m
    · exact fun h => List.mem_cons_of_mem pn h
  · have hz : segs.countP (providerNM1For npi) = 0 := by
      rw [hcount, if_neg hpred]
    exact predOnce_zero hz (fun h => List.mem_cons_of_mem pn h)

/-- Rewrite rule: a segment with a head diverging from the provider NM1
heads never matches, whatever its tail. -/
theorem pred_false_head (lit : String) (h : HeadDiverges lit)
    (npi rest : String) : providerNM1For npi (lit ++ rest) = false :=
  providerNM1For_append_false npi rest h

/-- Rewrite rule: a fixed segment none of the provider NM1 heads prefixes
never matches. -/
theorem pred_false_closed (s : String)
    (h85 : ¬ "NM1*85*".data <+: s.data) (h82 : ¬ "NM1*82*".data <+: s.data)
    (h77 : ¬ "NM1*77*".data <+: s.data) (npi : String) :
    providerNM1For npi s = false := by
  refine providerNM1For_closed_false npi s ?_ ?_ ?_ <;>
    rw [strStartsWith, Bool.eq_false_iff] <;> intro hc
  · exact h85 ( List.isPrefixOf_iff_prefix.mp hc)
  · exact h82 ( List.isPrefixOf_iff_prefix.mp hc)
  · exact h77 ( List.isPrefixOf_iff_prefix.mp hc)

/-- No header segment is a provider name segment. -/
theorem countP_header_zero (npi : String) :
    create_header.countP (providerNM1For npi) = 0 := by
  simp [create_header, List.countP_cons,
    pred_false_closed "ISA*00*          *00*          *ZZ*AV09311993     *01*030240928      *240702*1531*^*00501*415133923*0*P*>~" (by decide) (by decide) (by decide),
    pred_false_closed "GS*HC*1923294*030240928*20240702*1533*415133923*X*005010X222A1~" (by decide) (by decide) (by decide),
    pred_false_closed "ST*837*415133923*005010X222A1~" (by decide) (by decide) (by decide),
    pred_false_closed "BHT*0019*00*1*20240702*1531*CH~" (by decide) (by decide) (by decide),
    pred_false_closed "NM1*41*2*Mattel Industries*****46*1234567890~" (by decide) (by decide) (by decide),
    pred_false_closed "PER*IC*Ruth Handler*TE*8458130000~" (by decide) (by decide) (by decide),
    pred_false_closed "NM1*40*2*AVAILITY 5010*****46*030240928~" (by decide) (by decide) (by decide)]

/-- No trailer segment is a provider name segment. -/
theorem countP_trailer_zero (npi : String) (n : Nat) :
    (create_trailer n).countP (providerNM1For npi) = 0 := by
  simp [create_trailer, List.countP_cons,
    pred_false_head "SE*" (by decide),
    pred_false_closed "GE*1*415133923~" (by decide) (by decide) (by decide),
    pred_false_closed "IEA*1*415133923~" (by decide) (by decide) (by decide),
    String.append_assoc]

/-- The billing-provider loop satisfies the dedup invariant. -/
theorem predOnce_billing (npi : String) (hstar : '*' ∉ npi.data)
    (p : BillingProvider) (hp : '*' ∉ p.npi.data) (m : List String) :
    PredOnce npi (create_billing_provider_loop p m).1 m
      (create_billing_provider_loop p m).2 := by
  have hent : p.toEntity.npi.getD "" = p.npi := rfl
  by_cases hs : p.npi = "" ∨ p.npi ∈ m
  · have hn : create_name_segment p.toEntity "billing_provider" m = (none, m) :=
      cns_provider_none _ _ (Or.inl rfl) _ (by rw [hent]; exact hs)
    cases hci : p.contactInfo with
    | none =>
      refine predOnce_zero ?_ ?_
      · simp [create_billing_provider_loop, hn, hci, List.countP_cons,
          pred_false_closed "HL*1**20*1~" (by decide) (by decide) (by decide),
          pred_false_head "PRV*BI*PXC*" (by decide),
          pred_false_head "REF*EI*" (by decide), String.append_assoc]
      · intro h
        simpa [create_billing_provider_loop, hn, hci] using h
    | some ci =>
      refine predOnce_zero ?_ ?_
      · simp [create_billing_provider_loop, hn, hci, List.countP_cons,
          pred_false_closed "HL*1**20*1~" (by decide) (by decide) (by decide),
          pred_false_head "PRV*BI*PXC*" (by decide),
          pred_false_head "REF*EI*" (by decide),
          pred_false_head "PER*IC*" (by decide), String.append_assoc]
      · intro h
        simpa [create_billing_provider_loop, hn, hci] using h
  · push_neg at hs
    obtain ⟨seg, hseg, w, hw⟩ := cns_provider_some p.toEntity
      "billing_provider" (Or.inl rfl) m (by rw [hent]; exact hs.1)
      (by rw [hent]; exact hs.2)
    rw [hent] at hseg hw
    cases hci : p.contactInfo with
    | none =>
      have hloop : create_billing_provider_loop p m =
          (["HL*1**20*1~", "PRV*BI*PXC*" ++ p.taxonomyCode ++ "~", seg,
            "N3*" ++ p.address.address1 ++ "*" ++
              (p.address.address2.getD "") ++ "~",
            "N4*" ++ p.address.city ++ "*" ++ p.address.state ++ "*" ++
              p.address.postalCode ++ "~",
            "REF*EI*" ++ p.employerId ++ "~"], p.npi :: m) := by
        simp [create_billing_provider_loop, hseg, hci]
      rw [hloop]
      refine predOnce_of_count_ite ?_ hw hstar hp hs.2
      simp [List.countP_cons,
        pred_false_closed "HL*1**20*1~" (by decide) (by decide) (by decide),
        pred_false_head "PRV*BI*PXC*" (by decide),
        pred_false_head "N3*" (by decide), pred_false_head "N4*" (by decide),
        pred_false_head "REF*EI*" (by decide), String.append_assoc]
    | some ci =>
      have hloop : create_billing_provider_loop p m =
          (["HL*1**20*1~", "PRV*BI*PXC*" ++ p.taxonomyCode ++ "~", seg,
            "N3*" ++ p.address.address1 ++ "*" ++
              (p.address.address2.getD "") ++ "~",
            "N4*" ++ p.address.city ++ "*" ++ p.address.state ++ "*" ++
              p.address.postalCode ++ "~",
            "REF*EI*" ++ p.employerId ++ "~",
            "PER*IC*" ++ ci.name ++ "*TE*" ++ ci.phoneNumber ++ "~"],
           p.npi :: m) := by
        simp [create_billing_provider_loop, hseg, hci]
      rw [hloop]
      refine predOnce_of_count_ite ?_ hw hstar hp hs.2
      simp [List.countP_cons,
        pred_false_closed "HL*1**20*1~" (by decide) (by decide) (by decide),
        pred_false_head "PRV*BI*PXC*" (by decide),
        pred_false_head "N3*" (by decide), pred_false_head "N4*" (by decide),
        pred_false_head "REF*EI*" (by decide),
        pred_false_head "PER*IC*" (by decide), String.append_assoc]

/-- The subscriber loop leaves the provider registry untouched. -/
theorem create_subscriber_loop_map (sub : Subscriber) (numSubs : Nat)
    (m : List String) : (create_subscriber_loop sub numSubs m).2 = m := by
  by_cases hd : sub.is_dependent <;>
    simp [create_subscriber_loop, create_name_segment_subscriber, hd]

/-- No segment of a subscriber loop is a provider name segment. -/
theorem create_subscriber_loop_countP (npi : String) (sub : Subscriber)
    (numSubs : Nat) (m : List String) :
    (create_subscriber_loop sub numSubs m).1.countP (providerNM1For npi)
      = 0 := by
  have hnm1 : subscriber_nm1 sub = "NM1*IL*1*" ++ (sub.lastName ++ ("*" ++
      (sub.firstName ++ ("****MI*" ++ (sub.memberId ++ "~"))))) := by
    simp [subscriber_nm1, String.append_assoc]
  by_cases hd : sub.is_dependent
  · by_cases hp : sub.paymentResponsibilityLevelCode = "P" <;>
      simp [create_subscriber_loop, create_name_segment_subscriber, hd, hp,
        List.countP_cons, List.countP_append,
        pred_false_closed "HL*3*2*23*0~" (by decide) (by decide) (by decide),
        pred_false_closed "PAT*01~" (by decide) (by decide) (by decide),
        pred_false_head "NM1*QC*1*" (by decide),
        pred_false_head "N3*" (by decide), pred_false_head "N4*" (by decide),
        pred_false_head "DMG*D8*" (by decide), String.append_assoc]
  · by_cases hz : numSubs - 1 = 0
    · have hlt : ¬ 1 < numSubs := by omega
      simp [create_subscriber_loop, create_name_segment_subscriber, hd, hz,
        hlt, hnm1, List.countP_cons, List.countP_append,
        pred_false_head "HL*2*1*22*" (by decide),
        pred_false_head "SBR*" (by decide),
        pred_false_head "N3*" (by decide), pred_false_head "N4*" (by decide),
        pred_false_head "DMG*D8*" (by decide),
        pred_false_head "NM1*IL*1*" (by decide), String.append_assoc]
    · have hlt : 1 < numSubs := by omega
      simp [create_subscriber_loop, create_name_segment_subscriber, hd, hz,
        hlt, hnm1, List.countP_cons, List.countP_append,
        pred_false_head "HL*2*1*22*" (by decide),
        pred_false_head "SBR*" (by decide),
        pred_false_head "NM1*IL*1*" (by decide), String.append_assoc]

/-- The payer segment is not a provider name segment. -/
theorem payer_segment_pred_false (npi : String) (pi : PayerInfo) :
    providerNM1For npi (create_payer pi) = false := by
  have h : create_payer pi = "NM1*PR*2*" ++ (pi.organizationName ++
      ("*****PI*" ++ (pi.payerId ++ "~"))) := by
    simp [create_payer, String.append_assoc]
  rw [h]
  exact pred_false_head "NM1*PR*2*" (by decide) npi _

/-- The subscriber pass of `build` (when it succeeds) emits no provider
name segment and returns the registry unchanged. -/
theorem build_subscribers_spec (b : Builder) (pidx : Nat) (npi : String) :
    ∀ (subs : List Subscriber) (sidx : Nat) (m segs m' : List String),
      build_subscribers b pidx subs sidx m = .ok (segs, m') →
      m' = m ∧ segs.countP (providerNM1For npi) = 0 := by
  intro subs
  induction subs with
  | nil =>
    intro sidx m segs m' h
    simp only [build_subscribers] at h
    cases h
    exact ⟨rfl, rfl⟩
  | cons sub rest ih =>
    intro sidx m segs m' h
    simp only [build_subscribers] at h
    by_cases hb : sub.billingProviderIndex = pidx
    · rw [if_pos hb] at h
      cases hpay : b.payer_info with
      | none => rw [hpay] at h; cases h
      | some pi =>
        rw [hpay] at h
        cases hrec : build_subscribers b pidx rest (sidx + 1)
            (create_subscriber_loop sub b.subscribers.length m).2 with
        | error e => rw [hrec] at h; cases h
        | ok tl =>
          rw [hrec] at h
          cases h
          obtain ⟨hm, hcnt⟩ := ih (sidx + 1) _ tl.1 tl.2 hrec
          constructor
          · rw [hm, create_subscriber_loop_map]
          · rw [List.countP_append, List.countP_append,
              create_subscriber_loop_countP, hcnt]
            by_cases hsz : sidx = 0 <;>
              simp [hsz, List.countP_cons, payer_segment_pred_false]
    · rw [if_neg hb] at h
      exact ih (sidx + 1) m segs m' h

/-- The service-facility block satisfies the dedup invariant. -/
theorem predOnce_facility (npi : String) (hstar : '*' ∉ npi.data)
    (fac : Option ServiceFacility)
    (hfac : ∀ f, fac = some f → '*' ∉ f.npi.data) (m : List String) :
    PredOnce npi (create_service_facility_segments fac m).1 m
      (create_service_facility_segments fac m).2 := by
  cases fac with
  | none => exact predOnce_zero rfl id
  | some f =>
    have hent : f.toEntity.npi.getD "" = f.npi := rfl
    have hf := hfac f rfl
    by_cases hs : f.npi = "" ∨ f.npi ∈ m
    · have hn : create_name_segment f.toEntity "service_facility" m =
          (none, m) :=
        cns_provider_none _ _ (Or.inr (Or.inr rfl)) _ (by rw [hent]; exact hs)
      refine predOnce_zero ?_ ?_
      · simp [create_service_facility_segments, hn]
      · intro h
        simpa [create_service_facility_segments, hn] using h
    · push_neg at hs
      obtain ⟨seg, hseg, w, hw⟩ := cns_provider_some f.toEntity
        "service_facility" (Or.inr (Or.inr rfl)) m (by rw [hent]; exact hs.1)
        (by rw [hent]; exact hs.2)
      rw [hent] at hseg hw
      have hloop : create_service_facility_segments (some f) m =
          ([seg,
            "N3*" ++ f.address.address1 ++
              (if (f.address.address2.getD "") ≠ "" then
                 "*" ++ (f.address.address2.getD "") else "") ++ "~",
            "N4*" ++ f.address.city ++ "*" ++ f.address.state ++ "*" ++
              f.address.postalCode ++ "~"], f.npi :: m) := by
        simp [create_service_facility_segments, hseg]
      rw [hloop]
      refine predOnce_of_count_ite ?_ hw hstar hf hs.2
      simp [List.countP_cons, pred_false_head "N3*" (by decide),
        pred_false_head "N4*" (by decide), String.append_assoc]

/-- The claim-information loop satisfies the dedup invariant. -/
theorem predOnce_claim_loop (npi : String) (hstar : '*' ∉ npi.data)
    (ci : Option ClaimInformation) (pa : Option String)
    (fac : Option ServiceFacility)
    (hfac : ∀ f, fac = some f → '*' ∉ f.npi.data) (m : List String) :
    PredOnce npi (create_claim_information_loop ci pa fac m).1 m
      (create_claim_information_loop ci pa fac m).2 := by
  cases ci with
  | none => exact predOnce_zero rfl id
  | some claim =>
    simp only [create_claim_information_loop]
    refine predOnce_append (predOnce_zero ?_ id) (predOnce_facility npi hstar fac hfac m)
    cases hpa : pa <;> by_cases hdg : claim.diagnosisCodes = [] <;>
      simp [hdg, List.countP_cons, List.countP_append,
        pred_false_head "CLM*" (by decide),
        pred_false_head "REF*G1*" (by decide),
        pred_false_head "HI*" (by decide), String.append_assoc]

/-- The rendering block of one service line satisfies the dedup
invariant. -/
theorem predOnce_line_rendering (npi : String) (hstar : '*' ∉ npi.data)
    (rps : List RenderingProvider)
    (hrps : ∀ rp ∈ rps, '*' ∉ rp.npi.data) (line : ServiceLine)
    (m : List String) :
    PredOnce npi (service_line_rendering_block rps line m).1 m
      (service_line_rendering_block rps line m).2 := by
  cases hidx : line.renderingProviderIndex with
  | none =>
    simp only [service_line_rendering_block, hidx]
    exact predOnce_zero rfl id
  | some idx =>
    simp only [service_line_rendering_block, hidx]
    by_cases hin : 0 ≤ idx ∧ idx.toNat < rps.length
    · rw [dif_pos hin]
      set p := rps.get ⟨idx.toNat, hin.2⟩ with hpdef
      have hent : p.toEntity.npi.getD "" = p.npi := rfl
      have hpstar : '*' ∉ p.npi.data :=
        hrps p (List.get_mem rps idx.toNat hin.2)
      by_cases hs : p.npi = "" ∨ p.npi ∈ m
      · have hn : create_name_segment p.toEntity "rendering_provider" m =
            (none, m) :=
          cns_provider_none _ _ (Or.inr (Or.inl rfl)) _
            (by rw [hent]; exact hs)
        rw [hn]
        exact predOnce_zero rfl id
      · push_neg at hs
        obtain ⟨seg, hseg, w, hw⟩ := cns_provider_some p.toEntity
          "rendering_provider" (Or.inr (Or.inl rfl)) m
          (by rw [hent]; exact hs.1) (by rw [hent]; exact hs.2)
        rw [hent] at hseg hw
        rw [hseg]
        refine predOnce_of_count_ite ?_ hw hstar hpstar hs.2
        simp [List.countP_cons, pred_false_head "PRV*PE*PXC*" (by decide),
          String.append_assoc]
    · rw [dif_neg hin]
      exact predOnce_zero rfl id

/-- The service-line loop satisfies the dedup invariant. -/
theorem predOnce_service_lines_go (npi : String) (hstar : '*' ∉ npi.data)
    (rps : List RenderingProvider)
    (hrps : ∀ rp ∈ rps, '*' ∉ rp.npi.data) :
    ∀ (lines : List ServiceLine) (i : Nat) (m : List String),
      PredOnce npi (create_service_lines_go rps lines i m).1 m
        (create_service_lines_go rps lines i m).2 := by
  intro lines
  induction lines with
  | nil =>
    intro i m
    exact predOnce_zero rfl id
  | cons line rest ih =>
    intro i m
    simp only [create_service_lines_go]
    refine predOnce_append (predOnce_append (predOnce_zero ?_ id)
      (predOnce_line_rendering npi hstar rps hrps line m)) (ih (i + 1) _)
    by_cases hdt : line.serviceDate = "" <;>
      simp [hdt, List.countP_cons, sv1_segment,
        pred_false_head "LX*" (by decide),
        pred_false_head "SV1*HC>" (by decide),
        pred_false_head "DTP*472*D8*" (by decide), String.append_assoc]

/-- The rendering-provider loop satisfies the dedup invariant. -/
theorem predOnce_rendering_loop (npi : String) (hstar : '*' ∉ npi.data) :
    ∀ (rps : List RenderingProvider), (∀ rp ∈ rps, '*' ∉ rp.npi.data) →
    ∀ m, PredOnce npi (create_rendering_provider_segments rps m).1 m
      (create_rendering_provider_segments rps m).2 := by
  intro rps
  induction rps with
  | nil =>
    intro _ m
    exact predOnce_zero rfl id
  | cons rp rest ih =>
    intro hcl m
    simp only [create_rendering_provider_segments]
    refine predOnce_append ?_
      (ih (fun q hq => hcl q (List.mem_cons_of_mem rp hq)) _)
    have hent : rp.toEntity.npi.getD "" = rp.npi := rfl
    have hrpstar := hcl rp (List.mem_cons_self rp rest)
    by_cases hs : rp.npi = "" ∨ rp.npi ∈ m
    · have hn : create_name_segment rp.toEntity "rendering_provider" m =
          (none, m) :=
        cns_provider_none _ _ (Or.inr (Or.inl rfl)) _ (by rw [hent]; exact hs)
      rw [hn]
      exact predOnce_zero rfl id
    · push_neg at hs
      obtain ⟨seg, hseg, w, hw⟩ := cns_provider_some rp.toEntity
        "rendering_provider" (Or.inr (Or.inl rfl)) m
        (by rw [hent]; exact hs.1) (by rw [hent]; exact hs.2)
      rw [hent] at hseg hw
      rw [hseg]
      refine predOnce_of_count_ite ?_ hw hstar hrpstar hs.2
      simp [List.countP_cons, pred_false_head "PRV*PE*PXC*" (by decide),
        String.append_assoc]

/-- `create_service_lines` satisfies the dedup invariant. -/
theorem predOnce_service_lines (npi : String) (hstar : '*' ∉ npi.data)
    (rps : List RenderingProvider)
    (hrps : ∀ rp ∈ rps, '*' ∉ rp.npi.data) (lines : List ServiceLine)
    (m : List String) :
    PredOnce npi (create_service_lines rps lines m).1 m
      (create_service_lines rps lines m).2 :=
  predOnce_service_lines_go npi hstar rps hrps lines 0 m

/-- The provider pass of `build` satisfies the dedup invariant. -/
theorem predOnce_build_providers (b : Builder) (npi : String)
    (hstar : '*' ∉ npi.data)
    (hrps : ∀ rp ∈ b.rendering_providers, '*' ∉ rp.npi.data)
    (hfac : ∀ f, b.service_facility = some f → '*' ∉ f.npi.data) :
    ∀ (ps : List BillingProvider), (∀ p ∈ ps, '*' ∉ p.npi.data) →
    ∀ (pidx : Nat) (m segs m' : List String),
      build_providers b ps pidx m = .ok (segs, m') →
      PredOnce npi segs m m' := by
  intro ps
  induction ps with
  | nil =>
    intro _ pidx m segs m' h
    simp only [build_providers] at h
    cases h
    exact predOnce_zero rfl id
  | cons p rest ih =>
    intro hcl pidx m segs m' h
    simp only [build_providers] at h
    split at h
    · cases h
    · rename_i sl hsub
      split at h
      · cases h
      · rename_i tl hrec
        cases h
        obtain ⟨hm, hcnt⟩ := build_subscribers_spec b pidx npi b.subscribers 0
          (create_billing_provider_loop p m).2 sl.1 sl.2 hsub
        refine predOnce_append (predOnce_append (predOnce_append
          (predOnce_append (predOnce_append
            (predOnce_billing npi hstar p
              (hcl p (List.mem_cons_self p rest)) m)
            (predOnce_zero hcnt (fun hmem => hm ▸ hmem)))
          (predOnce_claim_loop npi hstar b.claim_information
            b.prior_authorization b.service_facility hfac sl.2))
          (predOnce_service_lines npi hstar b.rendering_providers hrps
            b.service_lines _)) ?_)
          (ih (fun q hq => hcl q (List.mem_cons_of_mem p hq)) (pidx + 1)
            _ tl.1 tl.2 hrec)
        by_cases hr : b.rendering_providers.length > 0
    
        · simp only [hr, if_pos]
          exact predOnce_rendering_loop npi hstar b.rendering_providers hrps _
        · simp only [hr, if_neg, not_false_iff]
          exact predOnce_zero rfl id

/-- No provider, rendering provider, or service facility of the store has
an element separator in its NPI (the X12 format itself forbids it). -/
def CleanStore (b : Builder) : Prop :=
  (∀ p ∈ b.billing_providers, '*' ∉ p.npi.data)
  ∧ (∀ rp ∈ b.rendering_providers, '*' ∉ rp.npi.data)
  ∧ (∀ f, b.service_facility = some f → '*' ∉ f.npi.data)

/-- C6: the NPI dedup invariant.  (1) In a successful `build`, at most one
emitted segment is a provider/facility name segment carrying a given NPI —
only the first occurrence in emission order opens a name block, whatever
mix of billing providers, rendering providers and service facility shares
the NPI.  (2) A billing provider whose NPI is empty or already registered
still contributes its fixed HL, PRV specialty and tax-ID REF segments (and
its optional PER contact segment) but no NM1/N3/N4 name block.  (3) A
rendering provider whose NPI is empty or already registered contributes
nothing at all: its PRV specialty segment is suppressed together with its
NM1. -/
theorem npi_dedup_invariant (b : Builder) (out : List String) (npi : String)
    (hclean : CleanStore b) (hstar : '*' ∉ npi.data)
    (hout : buildSegments b = .ok out) :
    out.countP (providerNM1For npi) ≤ 1
  ∧ (∀ (p : BillingProvider) (m2 : List String), p.npi = "" ∨ p.npi ∈ m2 →
      create_billing_provider_loop p m2 =
        (["HL*1**20*1~", "PRV*BI*PXC*" ++ p.taxonomyCode ++ "~",
          "REF*EI*" ++ p.employerId ++ "~"] ++
         (match p.contactInfo with
          | some ci => ["PER*IC*" ++ ci.name ++ "*TE*" ++ ci.phoneNumber ++ "~"]
          | none => []), m2))
  ∧ (∀ (rp : RenderingProvider) (rest : List RenderingProvider)
        (m2 : List String), rp.npi = "" ∨ rp.npi ∈ m2 →
      create_rendering_provider_segments (rp :: rest) m2 =
        create_rendering_provider_segments rest m2) := by
  obtain ⟨hbps, hrps, hfac⟩ := hclean
  refine ⟨?_, ?_, ?_⟩
  · simp only [buildSegments] at hout
    split at hout
    · cases hout
    · rename_i body hbody
      cases hout
      have hpo := predOnce_build_providers b npi hstar hrps hfac
        b.billing_providers hbps 0 b.provider_map body.1 body.2 hbody
      rw [List.countP_append, List.countP_append, countP_header_zero,
        countP_trailer_zero]
      have := hpo.2.1
      omega
  · intro p m2 hp
    have hent : p.toEntity.npi.getD "" = p.npi := rfl
    have hn : create_name_segment p.toEntity "billing_provider" m2 =
        (none, m2) :=
      cns_provider_none _ _ (Or.inl rfl) _ (by rw [hent]; exact hp)
    cases hci : p.contactInfo <;>
      simp [create_billing_provider_loop, hn, hci]
  · intro rp rest m2 hp
    have hent : rp.toEntity.npi.getD "" = rp.npi := rfl
    have hn : create_name_segment rp.toEntity "rendering_provider" m2 =
        (none, m2) :=
      cns_provider_none _ _ (Or.inr (Or.inl rfl)) _ (by rw [hent]; exact hp)
    simp only [create_rendering_provider_segments, hn, List.nil_append]

/-- Witness for C6 at a concrete store and NPI. -/
theorem npi_dedup_invariant_witness :
    (["ISA*00*          *00*          *ZZ*AV09311993     *01*030240928      *240702*1531*^*00501*415133923*0*P*>~",
      "GS*HC*1923294*030240928*20240702*1533*415133923*X*005010X222A1~",
      "ST*837*415133923*005010X222A1~",
      "BHT*0019*00*1*20240702*1531*CH~",
      "NM1*41*2*Mattel Industries*****46*1234567890~",
      "PER*IC*Ruth Handler*TE*8458130000~",
      "NM1*40*2*AVAILITY 5010*****46*030240928~",
      "HL*1**20*1~",
      "PRV*BI*PXC*207Q00000X~",
      "NM1*85*2*Acme Clinic*****XX*1234567890~",
      "N3*123 Main St*~",
      "N4*Los Angeles*CA*90001~",
      "REF*EI*999999999~",
      "LX*1~",
      "SV1*HC>99213*150.0*UN*1.0***1~",
      "DTP*472*D8*20240702~",
      "SE*15*415133923~",
      "GE*1*415133923~",
      "IEA*1*415133923~"] : List String).countP
        (providerNM1For "1234567890") ≤ 1
  ∧ (∀ (p : BillingProvider) (m2 : List String), p.npi = "" ∨ p.npi ∈ m2 →
      create_billing_provider_loop p m2 =
        (["HL*1**20*1~", "PRV*BI*PXC*" ++ p.taxonomyCode ++ "~",
          "REF*EI*" ++ p.employerId ++ "~"] ++
         (match p.contactInfo with
          | some ci => ["PER*IC*" ++ ci.name ++ "*TE*" ++ ci.phoneNumber ++ "~"]
          | none => []), m2))
  ∧ (∀ (rp : RenderingProvider) (rest : List RenderingProvider)
        (m2 : List String), rp.npi = "" ∨ rp.npi ∈ m2 →
      create_rendering_provider_segments (rp :: rest) m2 =
        create_rendering_provider_segments rest m2) :=
  npi_dedup_invariant storeDanglingIndex _ "1234567890"
    ⟨by decide, by decide, fun f h => nomatch h⟩ (by decide) rfl

/-- C5: in every successful `build`, the count passed to the transaction
trailer equals the number of emitted segments from ST through SE inclusive:
the pre-trailer output is the seven-segment header (ISA and GS being its
first two segments) followed by the body, and the SE count is the length of
that output minus the two envelope segments plus one for SE itself — which
is precisely the `len(segments) - 1` the source computes. -/
theorem trailer_count_matches_st_through_se (b : Builder)
    (out : List String) (hout : buildSegments b = .ok out) :
    ∃ body : List String,
      out = (create_header ++ body) ++
        create_trailer (((create_header ++ body).drop 2).length + 1) := by
  simp only [buildSegments] at hout
  split at hout
  · cases hout
  · rename_i body hbody
    cases hout
    refine ⟨body.1, ?_⟩
    have hn : (create_header ++ body.1).length - 1 =
        ((create_header ++ body.1).drop 2).length + 1 := by
      simp [create_header]
    rw [hn]

/-- Witness for C5 on the empty store. -/
theorem trailer_count_matches_st_through_se_witness :
    ∃ body : List String,
      (["ISA*00*          *00*          *ZZ*AV09311993     *01*030240928      *240702*1531*^*00501*415133923*0*P*>~",
        "GS*HC*1923294*030240928*20240702*1533*415133923*X*005010X222A1~",
        "ST*837*415133923*005010X222A1~",
        "BHT*0019*00*1*20240702*1531*CH~",
        "NM1*41*2*Mattel Industries*****46*1234567890~",
        "PER*IC*Ruth Handler*TE*8458130000~",
        "NM1*40*2*AVAILITY 5010*****46*030240928~",
        "SE*6*415133923~", "GE*1*415133923~", "IEA*1*415133923~"] :
          List String) =
      (create_header ++ body) ++
        create_trailer (((create_header ++ body).drop 2).length + 1) :=
  trailer_count_matches_st_through_se initBuilder _ rfl

/-- C3 amended: with exactly one billing provider the emission order is
strictly header, billing-provider loop, subscriber loops (with optional
payer), claim loop, service lines, rendering providers, trailer, each
emitted exactly once.  (With two or more billing providers the claim,
service-line and rendering passes are re-run inside every provider pass —
see the counterexample.) -/
theorem single_provider_emission_order (b : Builder) (p : BillingProvider)
    (hp : b.billing_providers = [p]) (out : List String)
    (hout : buildSegments b = .ok out) :
    ∃ (ssegs mf : List String),
      build_subscribers b 0 b.subscribers 0
        (create_billing_provider_loop p b.provider_map).2 = .ok (ssegs, mf)
      ∧ ∃ n, out =
          create_header
          ++ (create_billing_provider_loop p b.provider_map).1
          ++ ssegs
          ++ (create_claim_information_loop b.claim_information
              b.prior_authorization b.service_facility mf).1
          ++ (create_service_lines b.rendering_providers b.service_lines
              (create_claim_information_loop b.claim_information
                b.prior_authorization b.service_facility mf).2).1
          ++ (if 0 < b.rendering_providers.length then
                (create_rendering_provider_segments b.rendering_providers
                  (create_service_lines b.rendering_providers b.service_lines
                    (create_claim_information_loop b.claim_information
                      b.prior_authorization b.service_facility mf).2).2).1
              else [])
          ++ create_trailer n := by
  simp only [buildSegments] at hout
  split at hout
  · cases hout
  · rename_i body hbody
    cases hout
    rw [hp] at hbody
    simp only [build_providers] at hbody
    split at hbody
    · cases hbody
    · rename_i sl hsub
      cases hbody
      by_cases hr : b.rendering_providers.length > 0
      · exact ⟨sl.1, sl.2, hsub, _, by
          simp only [hr, if_pos, List.append_nil, List.append_assoc]
          rfl⟩
      · exact ⟨sl.1, sl.2, hsub, _, by
          simp only [hr, if_neg, not_false_iff, List.append_nil,
            List.append_assoc]
          rfl⟩

/-- The billing-provider record that `add_billing_provider` stores for the
Acme adds used by the concrete stores above. -/
def bpAcme : BillingProvider :=
  { npi := "1234567890", taxonomyCode := "207Q00000X"
    employerId := "999999999", address := addrA
    organizationName := some "Acme Clinic", lastName := none
    firstName := none, contactInfo := none }

/-- Witness for C3 amended on a concrete single-provider store. -/
theorem single_provider_emission_order_witness :
    ∃ (ssegs mf : List String),
      build_subscribers storeDanglingIndex 0 storeDanglingIndex.subscribers 0
        (create_billing_provider_loop bpAcme
          storeDanglingIndex.provider_map).2 = .ok (ssegs, mf)
      ∧ ∃ n,
          (["ISA*00*          *00*          *ZZ*AV09311993     *01*030240928      *240702*1531*^*00501*415133923*0*P*>~",
            "GS*HC*1923294*030240928*20240702*1533*415133923*X*005010X222A1~",
            "ST*837*415133923*005010X222A1~",
            "BHT*0019*00*1*20240702*1531*CH~",
            "NM1*41*2*Mattel Industries*****46*1234567890~",
            "PER*IC*Ruth Handler*TE*8458130000~",
            "NM1*40*2*AVAILITY 5010*****46*030240928~",
            "HL*1**20*1~",
            "PRV*BI*PXC*207Q00000X~",
            "NM1*85*2*Acme Clinic*****XX*1234567890~",
            "N3*123 Main St*~",
            "N4*Los Angeles*CA*90001~",
            "REF*EI*999999999~",
            "LX*1~",
            "SV1*HC>99213*150.0*UN*1.0***1~",
            "DTP*472*D8*20240702~",
            "SE*15*415133923~",
            "GE*1*415133923~",
            "IEA*1*415133923~"] : List String) =
          create_header
          ++ (create_billing_provider_loop bpAcme
              storeDanglingIndex.provider_map).1
          ++ ssegs
          ++ (create_claim_information_loop storeDanglingIndex.claim_information
              storeDanglingIndex.prior_authorization
              storeDanglingIndex.service_facility mf).1
          ++ (create_service_lines storeDanglingIndex.rendering_providers
              storeDanglingIndex.service_lines
              (create_claim_information_loop storeDanglingIndex.claim_information
                storeDanglingIndex.prior_authorization
                storeDanglingIndex.service_facility mf).2).1
          ++ (if 0 < storeDanglingIndex.rendering_providers.length then
                (create_rendering_provider_segments
                  storeDanglingIndex.rendering_providers
                  (create_service_lines storeDanglingIndex.rendering_providers
                    storeDanglingIndex.service_lines
                    (create_claim_information_loop
                      storeDanglingIndex.claim_information
                      storeDanglingIndex.prior_authorization
                      storeDanglingIndex.service_facility mf).2).2).1
              else [])
          ++ create_trailer n :=
  single_provider_emission_order storeDanglingIndex bpAcme rfl _ rfl

/-- When `payer_info` is set, the subscriber pass cannot fail. -/
theorem build_subscribers_total (b : Builder) (pi : PayerInfo)
    (hp : b.payer_info = some pi) (pidx : Nat) :
    ∀ (subs : List Subscriber) (sidx : Nat) (m : List String),
      ∃ r, build_subscribers b pidx subs sidx m = .ok r := by
  intro subs
  induction subs with
  | nil =>
    intro sidx m
    exact ⟨([], m), rfl⟩
  | cons sub rest ih =>
    intro sidx m
    by_cases hb : sub.billingProviderIndex = pidx
    · simp only [build_subscribers, hp]
      rw [if_pos hb]
      split
      · exact ⟨_, rfl⟩
      · rename_i e herr
        obtain ⟨r, hr⟩ := ih (sidx + 1) _
        exact absurd (hr.symm.trans herr) (by simp)
    · simp only [build_subscribers]
      rw [if_neg hb]
      exact ih (sidx + 1) m

/-- When `payer_info` is set, the provider pass cannot fail. -/
theorem build_providers_total (b : Builder) (pi : PayerInfo)
    (hp : b.payer_info = some pi) :
    ∀ (ps : List BillingProvider) (pidx : Nat) (m : List String),
      ∃ r, build_providers b ps pidx m = .ok r := by
  intro ps
  induction ps with
  | nil =>
    intro pidx m
    exact ⟨([], m), rfl⟩
  | cons p rest ih =>
    intro pidx m
    obtain ⟨sl, hsub⟩ := build_subscribers_total b pi hp pidx b.subscribers 0
      (create_billing_provider_loop p m).2
    simp only [build_providers, hsub]
    split
    · rename_i e herr
      obtain ⟨r, hr⟩ := ih (pidx + 1) _
      exact absurd (hr.symm.trans herr) (by simp)
    · exact ⟨_, rfl⟩

/-- C7 amended: a service line whose rendering-provider index is dangling
(out of range for the registered rendering providers) produces no
rendering block and no error — the guard `0 <= provider_idx < len(...)`
silently skips it; and `build` as a whole cannot fail as long as a payer
was added (the only run-time error in `build` is the unrelated missing
`payer_info` attribute): there is no dangling-index detection or abort. -/
theorem dangling_rendering_index_silently_ignored :
    (∀ (rps : List RenderingProvider) (line : ServiceLine) (idx : Int)
        (m : List String),
      line.renderingProviderIndex = some idx →
      ¬(0 ≤ idx ∧ idx.toNat < rps.length) →
      service_line_rendering_block rps line m = ([], m))
  ∧ (∀ (b : Builder) (pi : PayerInfo), b.payer_info = some pi →
      ∃ out, buildSegments b = .ok out) := by
  constructor
  · intro rps line idx m hidx hout
    simp only [service_line_rendering_block, hidx, dif_neg hout]
  · intro b pi hp
    obtain ⟨r, hr⟩ := build_providers_total b pi hp b.billing_providers 0
      b.provider_map
    simp only [buildSegments, hr]
    exact ⟨_, rfl⟩

/-- A concrete service line with a dangling rendering index. -/
def lineDangling : ServiceLine :=
  { subscriberIndex := 0, patientIndex := none, procedureCode := "99213"
    modifierCodes := [], chargeAmount := "150.0", units := 1
    serviceDate := "20240702", renderingProviderIndex := some 5 }

/-- Witness for C7 amended. -/
theorem dangling_rendering_index_silently_ignored_witness :
    service_line_rendering_block [] lineDangling [] = ([], [])
  ∧ ∃ out, buildSegments storeScenarioWithPayer = .ok out :=
  ⟨dangling_rendering_index_silently_ignored.1 [] lineDangling 5 [] rfl
      (by decide),
   dangling_rendering_index_silently_ignored.2 storeScenarioWithPayer
      { organizationName := "United Health", payerId := "WIMCD" } rfl⟩

/-- Head-divergence rewrite rule for an arbitrary pattern. -/
theorem strStartsWith_head_false (pat lit : String)
    (h1 : ¬ pat.data <+: lit.data) (h2 : ¬ lit.data <+: pat.data)
    (rest : String) : strStartsWith pat (lit ++ rest) = false :=
  strStartsWith_append_false rest h1 h2

/-- Any name segment produced by `_create_name_segment` begins with the
literal `NM1*`. -/
theorem cns_seg_head (e : Entity) (ctx : String) (m : List String)
    (seg : String) (h : (create_name_segment e ctx m).1 = some seg) :
    ∃ rest, seg = "NM1*" ++ rest := by
  simp only [create_name_segment] at h
  split at h
  · simp only [Option.some.injEq] at h
    refine ⟨get_entity_identifier_code ctx ++ ("*" ++
      (determine_entity_type e ctx ++ ("*" ++
        ((if determine_entity_type e ctx = "1" then
            e.lastName.getD "" ++ "*" ++ e.firstName.getD "" ++ "*" ++
              e.middleName.getD "" ++ "*" ++ e.namePfx.getD "" ++ "*" ++
              e.nameSfx.getD "" ++ "*"
          else e.organizationName.getD "" ++ "*****") ++
         ((get_identification_details e ctx).2 ++ ("*" ++
          ((get_identification_details e ctx).1 ++ "~"))))))), ?_⟩
    rw [← h]
    simp [String.append_assoc]
  · cases h

/-- The fixed HL segment of the billing loop does not start with `PER`. -/
theorem per_not_in_hl : strStartsWith "PER" "HL*1**20*1~" = false := by
  decide

/-- A billing provider stored without contact info emits no PER segment. -/
theorem billing_loop_no_per (p : BillingProvider)
    (hp : p.contactInfo = none) (m : List String) :
    (create_billing_provider_loop p m).1.countP
      (fun s => strStartsWith "PER" s) = 0 := by
  cases hns : (create_name_segment p.toEntity "billing_provider" m).1 with
  | none =>
    simp [create_billing_provider_loop, hns, hp, List.countP_cons,
      per_not_in_hl,
      strStartsWith_head_false "PER" "PRV*BI*PXC*" (by decide) (by decide),
      strStartsWith_head_false "PER" "REF*EI*" (by decide) (by decide),
      String.append_assoc]
  | some seg =>
    obtain ⟨rest, hseg⟩ := cns_seg_head _ _ _ _ hns
    simp [create_billing_provider_loop, hns, hp, hseg, List.countP_cons,
      per_not_in_hl,
      strStartsWith_head_false "PER" "PRV*BI*PXC*" (by decide) (by decide),
      strStartsWith_head_false "PER" "NM1*" (by decide) (by decide),
      strStartsWith_head_false "PER" "N3*" (by decide) (by decide),
      strStartsWith_head_false "PER" "N4*" (by decide) (by decide),
      strStartsWith_head_false "PER" "REF*EI*" (by decide) (by decide),
      String.append_assoc]

/-- C10: contact information is de-duplicated across add calls by the
(name, phoneNumber) key.  (1) `add_submitter` records the key.  (2) A
later `add_billing_provider` whose contact carries an already-recorded key
appends its provider with the contactInfo silently dropped, and that
provider's loop emits no PER segment.  (3) With a fresh key the provider
keeps its contactInfo and its loop carries the PER contact segment. -/
theorem contact_info_dedup_by_name_phone (b : Builder) (ci : ContactInfo)
    (npi taxonomy_code employer_id : String) (address : Address)
    (organization_name last_name first_name : Option String) :
    (contact_key ci.name ci.phoneNumber ∈
      (add_submitter b (some ci)).contact_info_map)
  ∧ (contact_key ci.name ci.phoneNumber ∈ b.contact_info_map →
      ∃ p : BillingProvider,
        (add_billing_provider b npi taxonomy_code employer_id address
          organization_name last_name first_name
          (some ci)).1.billing_providers = b.billing_providers ++ [p]
        ∧ p.contactInfo = none
        ∧ ∀ m, (create_billing_provider_loop p m).1.countP
            (fun s => strStartsWith "PER" s) = 0)
  ∧ (contact_key ci.name ci.phoneNumber ∉ b.contact_info_map →
      ∃ p : BillingProvider,
        (add_billing_provider b npi taxonomy_code employer_id address
          organization_name last_name first_name
          (some ci)).1.billing_providers = b.billing_providers ++ [p]
        ∧ p.contactInfo = some ci
        ∧ ∀ m, ("PER*IC*" ++ ci.name ++ "*TE*" ++ ci.phoneNumber ++ "~")
            ∈ (create_billing_provider_loop p m).1) := by
  refine ⟨?_, ?_, ?_⟩
  · by_cases hk : contact_key ci.name ci.phoneNumber ∈ b.contact_info_map <;>
      simp [add_submitter, hk]
  · intro hk
    refine ⟨if (organization_name.getD "") ≠ "" then
        ({ npi := npi, taxonomyCode := taxonomy_code
           employerId := employer_id, address := address
           organizationName := organization_name, lastName := none
           firstName := none, contactInfo := none } : BillingProvider)
      else
        { npi := npi, taxonomyCode := taxonomy_code
          employerId := employer_id, address := address
          organizationName := none, lastName := last_name
          firstName := first_name, contactInfo := none }, ?_, ?_, ?_⟩
    · simp [add_billing_provider, hk]
    · by_cases ho : (organization_name.getD "") ≠ "" <;> simp [ho]
    · intro m
      refine billing_loop_no_per _ ?_ m
      by_cases ho : (organization_name.getD "") ≠ "" <;> simp [ho]
  · intro hk
    refine ⟨{ (if (organization_name.getD "") ≠ "" then
        ({ npi := npi, taxonomyCode := taxonomy_code
           employerId := employer_id, address := address
           organizationName := organization_name, lastName := none
           firstName := none, contactInfo := none } : BillingProvider)
      else
        { npi := npi, taxonomyCode := taxonomy_code
          employerId := employer_id, address := address
          organizationName := none, lastName := last_name
          firstName := first_name, contactInfo := none }) with
        contactInfo := some ci }, ?_, ?_, ?_⟩
    · simp [add_billing_provider, hk]
    · rfl
    · intro m
      cases hns : (create_name_segment ({ (if (organization_name.getD "") ≠ ""
          then
            ({ npi := npi, taxonomyCode := taxonomy_code
               employerId := employer_id, address := address
               organizationName := organization_name, lastName := none
               firstName := none, contactInfo := none } : BillingProvider)
          else
            { npi := npi, taxonomyCode := taxonomy_code
              employerId := employer_id, address := address
              organizationName := none, lastName := last_name
              firstName := first_name, contactInfo := none }) with
          contactInfo := some ci } : BillingProvider).toEntity
          "billing_provider" m).1 <;>
        simp [create_billing_provider_loop, hns]

/-- A concrete contact used by the C10 witness. -/
def ciAlice : ContactInfo :=
  { name := "Alice", phoneNumber := "5551234" }

/-- Witness for C10: a submitter contact followed by a billing provider
with the same (name, phoneNumber) pair — the provider's contactInfo is
dropped and its loop emits no PER segment. -/
theorem contact_info_dedup_by_name_phone_witness :
    ∃ p : BillingProvider,
      (add_billing_provider (add_submitter initBuilder (some ciAlice))
        "1234567890" "207Q00000X" "999999999" addrA (some "Acme Clinic")
        none none (some ciAlice)).1.billing_providers =
        (add_submitter initBuilder (some ciAlice)).billing_providers ++ [p]
      ∧ p.contactInfo = none
      ∧ ∀ m, (create_billing_provider_loop p m).1.countP
          (fun s => strStartsWith "PER" s) = 0 :=
  (contact_info_dedup_by_name_phone (add_submitter initBuilder (some ciAlice))
    ciAlice "1234567890" "207Q00000X" "999999999" addrA (some "Acme Clinic")
    none none).2.1 (by decide)
